import Mathlib

/-!
Verification development for the DhruvDentalDepot backend (`src/server.js`).

The repository contains two Express server variants of the same design:
a JSON-file store variant and a SQLite variant.  Both are embedded below
as pure state-passing functions over explicit store states.  JavaScript
request values are modelled by `JValue` (undefined, null, booleans,
integer-valued numbers plus NaN, and strings), together with the exact
coercions the handlers apply (`x || y`, `String(x)`, `Number(x)`,
`.trim()`, `.toLowerCase()`).
-/

namespace DDD

/-! ## JavaScript value model -/

/-- JS numbers as used by the handlers: integer values plus NaN.
(The handlers only produce numbers via `Number(x)` coercion of request
fields; non-integer numerics are outside the value universe modelled.) -/
inductive JNum where
  | int (i : Int)
  | nan
deriving DecidableEq

/-- A JavaScript request value: `undefined`, `null`, booleans, numbers, strings. -/
inductive JValue where
  | undef
  | null
  | bool (b : Bool)
  | num (n : JNum)
  | str (s : String)
deriving DecidableEq

/-- JS truthiness: `undefined`, `null`, `false`, `0`, `NaN` and `""` are falsy. -/
def JValue.truthy : JValue → Bool
  | .undef => false
  | .null => false
  | .bool b => b
  | .num (.int i) => i != 0
  | .num .nan => false
  | .str s => s != ""

/-- JS `x || y`: `y` when `x` is falsy, otherwise `x`. -/
def jsOr (x y : JValue) : JValue :=
  if x.truthy then x else y

/-- Rendering of a `JNum` by JS `String(...)`. -/
def JNum.render : JNum → String
  | .int i => toString i
  | .nan => "NaN"

/-- JS `String(v)` coercion. -/
def jsToString : JValue → String
  | .undef => "undefined"
  | .null => "null"
  | .bool true => "true"
  | .bool false => "false"
  | .num n => n.render
  | .str s => s

/-- The whitespace characters stripped by JS `String.prototype.trim`
(restricted to the ASCII whitespace relevant to this service). -/
def isJsSpace (c : Char) : Bool :=
  c = ' ' || c = '\t' || c = '\n' || c = '\r'

/-- JS `s.trim()`: strip leading and trailing whitespace. -/
def jsTrim (s : String) : String :=
  ⟨((s.data.dropWhile isJsSpace).reverse.dropWhile isJsSpace).reverse⟩

/-- JS `s.toLowerCase()` (ASCII case folding). -/
def jsLower (s : String) : String :=
  ⟨s.data.map Char.toLower⟩

/-- Parse a nonempty run of decimal digits. -/
def parseDigits : List Char → Nat → Option Nat
  | [], acc => some acc
  | c :: cs, acc =>
    if c.isDigit then parseDigits cs (acc * 10 + (c.toNat - 48)) else none

/-- Parse a nonempty digit list, rejecting the empty list. -/
def parseDigitList : List Char → Option Nat
  | [] => none
  | ds => parseDigits ds 0

/-- JS `Number(string)` restricted to optionally signed decimal integer
literals: surrounding whitespace is ignored, the empty (or all-blank)
string is 0, and anything non-numeric is NaN. -/
def parseJsNumber (s : String) : JNum :=
  match (jsTrim s).data with
  | [] => .int 0
  | '-' :: ds =>
    match parseDigitList ds with
    | some n => .int (-(n : Int))
    | none => .nan
  | '+' :: ds =>
    match parseDigitList ds with
    | some n => .int (n : Int)
    | none => .nan
  | ds =>
    match parseDigitList ds with
    | some n => .int (n : Int)
    | none => .nan

/-- JS `Number(v)` coercion. -/
def jsToNumber : JValue → JNum
  | .undef => .nan
  | .null => .int 0
  | .bool true => .int 1
  | .bool false => .int 0
  | .num n => n
  | .str s => parseJsNumber s

/-! ## Data model (shared between the two variants) -/

/-- A stored user row. -/
structure User where
  id : String
  name : String
  email : String
  passwordHash : String
  createdAt : String
deriving DecidableEq

/-- A stored session row (keyed separately by its session id). -/
structure Session where
  userId : String
  createdAt : String
deriving DecidableEq

/-- The customer snapshot captured at order time (all fields trimmed strings). -/
structure Customer where
  name : String
  phone : String
  email : String
  address : String
  city : String
  state : String
  pinCode : String
  note : String
deriving DecidableEq

/-- An order line item as stored/echoed by the handlers. -/
structure OrderItem where
  id : String
  title : String
  category : String
  qty : JNum
deriving DecidableEq

/-- A stored order in the JSON-file variant (customer snapshot and items embedded). -/
structure Order where
  id : String
  createdAt : String
  userId : String
  customer : Customer
  items : List OrderItem
deriving DecidableEq

/-- `sanitizeUser`: the client-visible user projection (never the hash). -/
structure SanitizedUser where
  id : String
  name : String
  email : String
  createdAt : String
deriving DecidableEq

def sanitizeUser (u : User) : SanitizedUser :=
  ⟨u.id, u.name, u.email, u.createdAt⟩

/-- `sanitizeOrder`: the client-visible order projection (drops `userId`). -/
structure ClientOrder where
  id : String
  createdAt : String
  customer : Customer
  items : List OrderItem
deriving DecidableEq

def sanitizeOrder (o : Order) : ClientOrder :=
  ⟨o.id, o.createdAt, o.customer, o.items⟩

/-- Result of a handler: an HTTP status with either a JSON value or an
error-message body. -/
inductive ApiResult (α : Type) where
  | ok (status : Nat) (value : α)
  | err (status : Nat) (error : String)
deriving DecidableEq

/-! ## Request bodies -/

/-- Body of `POST /auth/register` (raw JS values; absent fields are `undef`). -/
structure RegisterBody where
  name : JValue
  email : JValue
  password : JValue

/-- Raw `customer` object of `POST /orders`. -/
structure CustomerBody where
  name : JValue
  phone : JValue
  email : JValue
  address : JValue
  city : JValue
  state : JValue
  pinCode : JValue
  note : JValue

/-- Raw entry of the `items` array of `POST /orders`. -/
structure ItemBody where
  id : JValue
  title : JValue
  category : JValue
  qty : JValue

/-- Body of `POST /orders`: `customer` may be absent (`req.body?.customer || {}`),
and `items` is `none` when `req.body?.items` is not an array. -/
structure OrderBody where
  customer : Option CustomerBody
  items : Option (List ItemBody)

/-- The empty object used for `req.body?.customer || {}`: every field `undefined`. -/
def emptyCustomerBody : CustomerBody :=
  ⟨.undef, .undef, .undef, .undef, .undef, .undef, .undef, .undef⟩

/-- `String(v || "").trim()` — the coercion applied to each customer field. -/
def trimmedField (v : JValue) : String :=
  jsTrim (jsToString (jsOr v (.str "")))

/-- The customer snapshot built by `POST /orders` from the raw body. -/
def coerceCustomer (c : CustomerBody) : Customer :=
  ⟨trimmedField c.name, trimmedField c.phone, trimmedField c.email,
   trimmedField c.address, trimmedField c.city, trimmedField c.state,
   trimmedField c.pinCode, trimmedField c.note⟩

/-- The item record built by `POST /orders`:
`{id: String(item.id || ""), title: String(item.title || ""),
  category: String(item.category || ""), qty: Number(item.qty || 0)}`
(note: item strings are not trimmed). -/
def coerceItem (it : ItemBody) : OrderItem :=
  ⟨jsToString (jsOr it.id (.str "")), jsToString (jsOr it.title (.str "")),
   jsToString (jsOr it.category (.str "")), jsToNumber (jsOr it.qty (.num (.int 0)))⟩

/-- The normalisation `String(v || "").trim().toLowerCase()` applied to emails. -/
def normalizeEmail (v : JValue) : String :=
  jsLower (jsTrim (jsToString (jsOr v (.str ""))))

/-! ## JSON-file variant store and handlers -/

/-- The JSON-file database `{users: [], sessions: {}, orders: []}`;
`sessions` is an object keyed by session id, modelled as an association
list in insertion order. -/
structure Db where
  users : List User
  sessions : List (String × Session)
  orders : List Order
deriving DecidableEq

/-- `getUserFromSession` (JSON-file variant): cookie → session → user. -/
def getUserFromSessionJson (db : Db) (cookieSid : Option String) : Option User :=
  match cookieSid with
  | none => none
  | some sid =>
    if sid = "" then none
    else
      match db.sessions.lookup sid with
      | none => none
      | some s => db.users.find? (fun u => u.id = s.userId)

/-- `POST /auth/register` (JSON-file variant).  `hash` abstracts
`bcrypt.hash(·, 12)`; `newUserId`/`newSessionId` abstract `crypto.randomUUID()`;
`now`/`sessionNow` abstract the two `new Date().toISOString()` reads.  Returns
the response together with the resulting store (unchanged on error). -/
def registerJson (hash : String → String) (newUserId newSessionId now sessionNow : String)
    (db : Db) (body : RegisterBody) : ApiResult (SanitizedUser × String) × Db :=
  if jsTrim (jsToString (jsOr body.name (.str ""))) = "" || normalizeEmail body.email = ""
      || jsToString (jsOr body.password (.str "")) = "" then
    (.err 400 "name, email, and password are required", db)
  else if db.users.any (fun u => u.email = normalizeEmail body.email) then
    (.err 409 "email already registered", db)
  else
    (.ok 201
      (sanitizeUser ⟨newUserId, jsTrim (jsToString (jsOr body.name (.str ""))),
        normalizeEmail body.email,
        hash (jsToString (jsOr body.password (.str ""))), now⟩, newSessionId),
     { db with
        users := db.users ++ [⟨newUserId, jsTrim (jsToString (jsOr body.name (.str ""))),
          normalizeEmail body.email,
          hash (jsToString (jsOr body.password (.str ""))), now⟩],
        sessions := db.sessions ++ [(newSessionId, ⟨newUserId, sessionNow⟩)] })

/-- `POST /auth/login` (JSON-file variant).  `compare` abstracts
`bcrypt.compare`. -/
def loginJson (compare : String → String → Bool) (newSessionId sessionNow : String)
    (db : Db) (emailV passwordV : JValue) : ApiResult (SanitizedUser × String) × Db :=
  if normalizeEmail emailV = "" || jsToString (jsOr passwordV (.str "")) = "" then
    (.err 400 "email and password are required", db)
  else
    match db.users.find? (fun u => u.email = normalizeEmail emailV) with
    | none => (.err 401 "invalid credentials", db)
    | some user =>
      if compare (jsToString (jsOr passwordV (.str ""))) user.passwordHash then
        (.ok 200 (sanitizeUser user, newSessionId),
         { db with sessions := db.sessions ++ [(newSessionId, ⟨user.id, sessionNow⟩)] })
      else
        (.err 401 "invalid credentials", db)

/-- `GET /auth/me` (JSON-file variant); read-only. -/
def authMeJson (db : Db) (cookieSid : Option String) : ApiResult SanitizedUser :=
  match getUserFromSessionJson db cookieSid with
  | none => .err 401 "not authenticated"
  | some u => .ok 200 (sanitizeUser u)

/-- `POST /orders` (JSON-file variant).  `nowMs` abstracts `Date.now()`
(the order id is `` `DDD-${Date.now()}` ``) and `nowIso` abstracts
`new Date().toISOString()`.  The session/user checks are inlined in the
handler; validation tests the truthiness of the *raw* customer fields. -/
def placeOrderJson (nowMs : Int) (nowIso : String) (db : Db)
    (cookieSid : Option String) (body : OrderBody) : ApiResult ClientOrder × Db :=
  match cookieSid with
  | none => (.err 401 "not authenticated", db)
  | some sid =>
    if sid = "" then (.err 401 "not authenticated", db)
    else
      match db.sessions.lookup sid with
      | none => (.err 401 "not authenticated", db)
      | some sess =>
        match db.users.find? (fun u => u.id = sess.userId) with
        | none => (.err 401 "not authenticated", db)
        | some user =>
          if !(body.customer.getD emptyCustomerBody).name.truthy
              || !(body.customer.getD emptyCustomerBody).phone.truthy
              || !(body.customer.getD emptyCustomerBody).address.truthy then
            (.err 400 "customer name, phone, and address are required", db)
          else if (body.items.getD []).length = 0 then
            (.err 400 "at least one order item is required", db)
          else
            (.ok 201 (sanitizeOrder ⟨"DDD-" ++ toString nowMs, nowIso, user.id,
                coerceCustomer (body.customer.getD emptyCustomerBody),
                (body.items.getD []).map coerceItem⟩),
             { db with orders := db.orders ++
                [⟨"DDD-" ++ toString nowMs, nowIso, user.id,
                  coerceCustomer (body.customer.getD emptyCustomerBody),
                  (body.items.getD []).map coerceItem⟩] })

/-- `GET /orders/me` (JSON-file variant): checks only that the cookie is
present and the session exists, then filters the stored orders by the
session's `userId` (in stored order, without sorting); read-only. -/
def listOrdersMeJson (db : Db) (cookieSid : Option String) : ApiResult (List ClientOrder) :=
  match cookieSid with
  | none => .err 401 "not authenticated"
  | some sid =>
    if sid = "" then .err 401 "not authenticated"
    else
      match db.sessions.lookup sid with
      | none => .err 401 "not authenticated"
      | some sess =>
        .ok 200 ((db.orders.filter (fun o => o.userId = sess.userId)).map sanitizeOrder)

/-! ## SQLite variant store -/

/-- A row of the `orders` table (`id TEXT PRIMARY KEY`, customer columns flattened). -/
structure OrderRow where
  id : String
  userId : String
  createdAt : String
  customer : Customer
deriving DecidableEq

/-- A row of the `order_items` table.  `rowid` is the `AUTOINCREMENT` primary
key; `qty INTEGER NOT NULL` can only hold an integer (SQLite stores a NaN
double as NULL, which the NOT NULL constraint rejects). -/
structure OrderItemRow where
  rowid : Nat
  orderId : String
  productId : String
  title : String
  category : String
  qty : Int
deriving DecidableEq

/-- The SQLite database state.  `nextItemId` is the next `AUTOINCREMENT`
value for `order_items`. -/
structure SqlDb where
  users : List User
  sessions : List (String × Session)
  orders : List OrderRow
  orderItems : List OrderItemRow
  nextItemId : Nat
deriving DecidableEq

/-- `INSERT INTO users`: enforces `id PRIMARY KEY` and `email UNIQUE`. -/
def insertUserRow (db : SqlDb) (u : User) : Except String SqlDb :=
  if db.users.any (fun v => v.id = u.id) then
    .error "UNIQUE constraint failed: users.id"
  else if db.users.any (fun v => v.email = u.email) then
    .error "UNIQUE constraint failed: users.email"
  else
    .ok { db with users := db.users ++ [u] }

/-- `INSERT INTO sessions`: enforces `id PRIMARY KEY` and the foreign key to `users`. -/
def insertSessionRow (db : SqlDb) (sid : String) (s : Session) : Except String SqlDb :=
  if (db.sessions.lookup sid).isSome then
    .error "UNIQUE constraint failed: sessions.id"
  else if db.users.any (fun u => u.id = s.userId) then
    .ok { db with sessions := db.sessions ++ [(sid, s)] }
  else
    .error "FOREIGN KEY constraint failed"

/-- `INSERT INTO orders`: enforces `id PRIMARY KEY` and the foreign key to `users`. -/
def insertOrderRow (db : SqlDb) (o : OrderRow) : Except String SqlDb :=
  if db.orders.any (fun p => p.id = o.id) then
    .error "UNIQUE constraint failed: orders.id"
  else if db.users.any (fun u => u.id = o.userId) then
    .ok { db with orders := db.orders ++ [o] }
  else
    .error "FOREIGN KEY constraint failed"

/-- `INSERT INTO order_items` with `AUTOINCREMENT` row id; a NaN `qty`
(bound as NULL by SQLite) violates `qty INTEGER NOT NULL`. -/
def insertOrderItemRow (db : SqlDb) (oid : String) (it : OrderItem) : Except String SqlDb :=
  match it.qty with
  | .nan => .error "NOT NULL constraint failed: order_items.qty"
  | .int q =>
    if db.orders.any (fun o => o.id = oid) then
      .ok { db with
              orderItems :=
                db.orderItems ++ [⟨db.nextItemId, oid, it.id, it.title, it.category, q⟩],
              nextItemId := db.nextItemId + 1 }
    else
      .error "FOREIGN KEY constraint failed"

/-- The item-insert loop of the `POST /orders` transaction. -/
def insertItems (oid : String) : SqlDb → List OrderItem → Except String SqlDb
  | db, [] => .ok db
  | db, it :: rest =>
    match insertOrderItemRow db oid it with
    | .error e => .error e
    | .ok db1 => insertItems oid db1 rest

/-! ## SQLite variant handlers -/

/-- `getUserFromSession` (SQLite variant): the `sessions INNER JOIN users`
lookup, returning the sanitized user columns selected by the query. -/
def getUserFromSessionSql (db : SqlDb) (cookieSid : Option String) : Option SanitizedUser :=
  match cookieSid with
  | none => none
  | some sid =>
    if sid = "" then none
    else
      match db.sessions.lookup sid with
      | none => none
      | some s => (db.users.find? (fun u => u.id = s.userId)).map sanitizeUser

/-- `POST /auth/register` (SQLite variant).  The user and session inserts are
*not* wrapped in a transaction; a failed session insert leaves the user row. -/
def registerSql (hash : String → String) (newUserId newSessionId now sessionNow : String)
    (db : SqlDb) (body : RegisterBody) : ApiResult (SanitizedUser × String) × SqlDb :=
  if jsTrim (jsToString (jsOr body.name (.str ""))) = "" || normalizeEmail body.email = ""
      || jsToString (jsOr body.password (.str "")) = "" then
    (.err 400 "name, email, and password are required", db)
  else if db.users.any (fun u => u.email = normalizeEmail body.email) then
    (.err 409 "email already registered", db)
  else
    match insertUserRow db ⟨newUserId, jsTrim (jsToString (jsOr body.name (.str ""))),
        normalizeEmail body.email, hash (jsToString (jsOr body.password (.str ""))), now⟩ with
    | .error _ => (.err 500 "internal server error", db)
    | .ok db1 =>
      match insertSessionRow db1 newSessionId ⟨newUserId, sessionNow⟩ with
      | .error _ => (.err 500 "internal server error", db1)
      | .ok db2 =>
        (.ok 201
          (sanitizeUser ⟨newUserId, jsTrim (jsToString (jsOr body.name (.str ""))),
            normalizeEmail body.email,
            hash (jsToString (jsOr body.password (.str ""))), now⟩, newSessionId), db2)

/-- `POST /auth/login` (SQLite variant). -/
def loginSql (compare : String → String → Bool) (newSessionId sessionNow : String)
    (db : SqlDb) (emailV passwordV : JValue) : ApiResult (SanitizedUser × String) × SqlDb :=
  if normalizeEmail emailV = "" || jsToString (jsOr passwordV (.str "")) = "" then
    (.err 400 "email and password are required", db)
  else
    match db.users.find? (fun u => u.email = normalizeEmail emailV) with
    | none => (.err 401 "invalid credentials", db)
    | some user =>
      if compare (jsToString (jsOr passwordV (.str ""))) user.passwordHash then
        match insertSessionRow db newSessionId ⟨user.id, sessionNow⟩ with
        | .error _ => (.err 500 "internal server error", db)
        | .ok db1 => (.ok 200 (sanitizeUser user, newSessionId), db1)
      else
        (.err 401 "invalid credentials", db)

/-- `GET /auth/me` (SQLite variant); read-only. -/
def authMeSql (db : SqlDb) (cookieSid : Option String) : ApiResult SanitizedUser :=
  match getUserFromSessionSql db cookieSid with
  | none => .err 401 "not authenticated"
  | some u => .ok 200 u

/-- `POST /orders` (SQLite variant): auth via `getUserFromSession`, raw-field
validation, then a transaction inserting the order row and every item row;
any insert failure rolls the whole transaction back and surfaces as 500. -/
def placeOrderSql (nowMs : Int) (nowIso : String) (db : SqlDb)
    (cookieSid : Option String) (body : OrderBody) : ApiResult ClientOrder × SqlDb :=
  match getUserFromSessionSql db cookieSid with
  | none => (.err 401 "not authenticated", db)
  | some user =>
    if !(body.customer.getD emptyCustomerBody).name.truthy
        || !(body.customer.getD emptyCustomerBody).phone.truthy
        || !(body.customer.getD emptyCustomerBody).address.truthy then
      (.err 400 "customer name, phone, and address are required", db)
    else if (body.items.getD []).length = 0 then
      (.err 400 "at least one order item is required", db)
    else
      match insertOrderRow db ⟨"DDD-" ++ toString nowMs, user.id, nowIso,
          coerceCustomer (body.customer.getD emptyCustomerBody)⟩ with
      | .error _ => (.err 500 "internal server error", db)
      | .ok db1 =>
        match insertItems ("DDD-" ++ toString nowMs) db1
            ((body.items.getD []).map coerceItem) with
        | .error _ => (.err 500 "internal server error", db)
        | .ok db2 =>
          (.ok 201 ⟨"DDD-" ++ toString nowMs, nowIso,
            coerceCustomer (body.customer.getD emptyCustomerBody),
            (body.items.getD []).map coerceItem⟩, db2)

/-! ## SQLite variant: the `GET /orders/me` query and reassembly -/

/-- The `order_items` rows joined to order id `oid`, in table order. -/
def itemRowsFor (db : SqlDb) (oid : String) : List OrderItemRow :=
  db.orderItems.filter (fun i => i.orderId = oid)

/-- One output row of the `orders LEFT JOIN order_items` query
(`item = none` models the NULL columns of an itemless order). -/
structure JoinRow where
  order : OrderRow
  item : Option OrderItemRow
deriving DecidableEq

/-- The join rows contributed by one order. -/
def rowsOf (db : SqlDb) (o : OrderRow) : List JoinRow :=
  let its := itemRowsFor db o.id
  if its.isEmpty then [⟨o, none⟩] else its.map (fun i => ⟨o, some i⟩)

/-- All join rows for the orders of user `uid` (before sorting). -/
def allRows (db : SqlDb) (uid : String) : List JoinRow :=
  (db.orders.filter (fun o => o.userId = uid)).flatMap (rowsOf db)

/-- Binary comparison of code-point lists (SQLite's default text collation
compares UTF-8 bytes, which coincides with code-point order). -/
def charListLtB : List Char → List Char → Bool
  | [], [] => false
  | [], _ :: _ => true
  | _ :: _, [] => false
  | a :: as, b :: bs =>
    if a.toNat < b.toNat then true
    else if b.toNat < a.toNat then false
    else charListLtB as bs

/-- Strict binary string comparison. -/
def strLtB (a b : String) : Bool :=
  charListLtB a.data b.data

/-- Sort key for the item part of a join row: NULL sorts before every row id. -/
def itemKey : Option OrderItemRow → Nat
  | none => 0
  | some i => i.rowid + 1

/-- `ORDER BY o.created_at DESC, oi.id ASC` as a total preorder on join rows. -/
def rowLE (a b : JoinRow) : Prop :=
  strLtB b.order.createdAt a.order.createdAt = true ∨
    (b.order.createdAt = a.order.createdAt ∧ itemKey a.item ≤ itemKey b.item)

/-- The strict version of `rowLE`. -/
def rowLT (a b : JoinRow) : Prop :=
  strLtB b.order.createdAt a.order.createdAt = true ∨
    (b.order.createdAt = a.order.createdAt ∧ itemKey a.item < itemKey b.item)

instance : DecidableRel rowLE := fun a b => by unfold rowLE; infer_instance

instance : DecidableRel rowLT := fun a b => by unfold rowLT; infer_instance

/-- Descending creation-timestamp order on order rows
(`a` comes before `b` when `a.createdAt` is not below `b.createdAt`). -/
def ordLE (a b : OrderRow) : Prop :=
  strLtB a.createdAt b.createdAt = false

instance : DecidableRel ordLE := fun a b => by unfold ordLE; infer_instance

/-- Strictly descending creation-timestamp order on order rows. -/
def ordLT (a b : OrderRow) : Prop :=
  strLtB b.createdAt a.createdAt = true

instance : DecidableRel ordLT := fun a b => by unfold ordLT; infer_instance

/-- JS `orderMap.get(oid).items.push(it)`: append an item to the entry for `oid`. -/
def pushItem (acc : List ClientOrder) (oid : String) (it : OrderItem) : List ClientOrder :=
  acc.map (fun o => if o.id = oid then { o with items := o.items ++ [it] } else o)

/-- The reassembly loop over the sorted join rows: create a map entry on the
first row of each order id, and push an item only when `row.product_id` is
truthy (so NULL and the empty string are both skipped). -/
def reassembleRows : List ClientOrder → List JoinRow → List ClientOrder
  | acc, [] => acc
  | acc, r :: rest =>
    let acc1 :=
      if acc.any (fun o => o.id = r.order.id) then acc
      else acc ++ [⟨r.order.id, r.order.createdAt, r.order.customer, []⟩]
    let acc2 :=
      match r.item with
      | none => acc1
      | some i =>
        if i.productId = "" then acc1
        else pushItem acc1 r.order.id ⟨i.productId, i.title, i.category, .int i.qty⟩
    reassembleRows acc2 rest

/-- `GET /orders/me` (SQLite variant); read-only. -/
def listOrdersMeSql (db : SqlDb) (cookieSid : Option String) : ApiResult (List ClientOrder) :=
  match getUserFromSessionSql db cookieSid with
  | none => .err 401 "not authenticated"
  | some u => .ok 200 (reassembleRows [] (List.insertionSort rowLE (allRows db u.id)))

/-- The client order that `GET /orders/me` (SQLite variant) reassembles for a
stored order: its item rows in row-id order, those with an empty product id
dropped. -/
def clientOrderOf (db : SqlDb) (o : OrderRow) : ClientOrder :=
  ⟨o.id, o.createdAt, o.customer,
   ((itemRowsFor db o.id).filter (fun i => !(i.productId = ""))).map
     (fun i => ⟨i.productId, i.title, i.category, .int i.qty⟩)⟩

/-- The integer value of a `JNum` (only ever applied where NaN has been
ruled out by a successful `order_items` insert). -/
def qtyInt : JNum → Int
  | .int q => q
  | .nan => 0

/-- The `order_items` rows that a successful item-insert loop appends for the
given items, with row ids counting up from `n`. -/
def itemRowsFrom (oid : String) : Nat → List OrderItem → List OrderItemRow
  | _, [] => []
  | n, it :: rest =>
    ⟨n, oid, it.id, it.title, it.category, qtyInt it.qty⟩ :: itemRowsFrom oid (n + 1) rest

/-! ## Order properties of the binary string comparison -/

theorem charListLtB_irrefl : ∀ l : List Char, charListLtB l l = false
  | [] => rfl
  | _ :: as => by simp [charListLtB, charListLtB_irrefl as]

theorem charListLtB_asymm : ∀ l₁ l₂ : List Char,
    charListLtB l₁ l₂ = true → charListLtB l₂ l₁ = false
  | [], [] => by simp [charListLtB]
  | [], _ :: _ => by simp [charListLtB]
  | _ :: _, [] => by simp [charListLtB]
  | a :: as, b :: bs => by
    intro h
    simp only [charListLtB] at h ⊢
    by_cases hab : a.toNat < b.toNat
    · rw [if_neg (Nat.lt_asymm hab), if_pos hab]
    · by_cases hba : b.toNat < a.toNat
      · rw [if_neg hab, if_pos hba] at h
        exact absurd h (by simp)
      · rw [if_neg hab, if_neg hba] at h
        rw [if_neg hba, if_neg hab]
        exact charListLtB_asymm as bs h

theorem charListLtB_trans : ∀ l₁ l₂ l₃ : List Char,
    charListLtB l₁ l₂ = true → charListLtB l₂ l₃ = true → charListLtB l₁ l₃ = true
  | [], [], _ => by simp [charListLtB]
  | [], _ :: _, [] => by simp [charListLtB]
  | [], _ :: _, _ :: _ => by simp [charListLtB]
  | _ :: _, [], _ => by simp [charListLtB]
  | _ :: _, _ :: _, [] => by simp [charListLtB]
  | a :: as, b :: bs, c :: cs => by
    intro h₁ h₂
    simp only [charListLtB] at h₁ h₂ ⊢
    by_cases hab : a.toNat < b.toNat
    · by_cases hbc : b.toNat < c.toNat
      · rw [if_pos (Nat.lt_trans hab hbc)]
      · by_cases hcb : c.toNat < b.toNat
        · rw [if_neg hbc, if_pos hcb] at h₂
          exact absurd h₂ (by simp)
        · have hbc' : b.toNat = c.toNat := Nat.le_antisymm (Nat.le_of_not_lt hcb) (Nat.le_of_not_lt hbc)
          rw [if_pos (hbc' ▸ hab)]
    · by_cases hba : b.toNat < a.toNat
      · rw [if_neg hab, if_pos hba] at h₁
        exact absurd h₁ (by simp)
      · have hab' : a.toNat = b.toNat := Nat.le_antisymm (Nat.le_of_not_lt hba) (Nat.le_of_not_lt hab)
        rw [if_neg hab, if_neg hba] at h₁
        by_cases hbc : b.toNat < c.toNat
        · rw [if_pos (hab' ▸ hbc)]
        · by_cases hcb : c.toNat < b.toNat
          · rw [if_neg hbc, if_pos hcb] at h₂
            exact absurd h₂ (by simp)
          · rw [if_neg hbc, if_neg hcb] at h₂
            rw [if_neg (hab' ▸ hbc), if_neg (hab' ▸ hcb)]
            exact charListLtB_trans as bs cs h₁ h₂

theorem charListLtB_conn : ∀ l₁ l₂ : List Char,
    charListLtB l₁ l₂ = false → charListLtB l₂ l₁ = false → l₁ = l₂
  | [], [] => by simp [charListLtB]
  | [], _ :: _ => by simp [charListLtB]
  | _ :: _, [] => by intro _ h; exact absurd h (by simp [charListLtB])
  | a :: as, b :: bs => by
    intro h₁ h₂
    simp only [charListLtB] at h₁ h₂
    by_cases hab : a.toNat < b.toNat
    · rw [if_pos hab] at h₁
      exact absurd h₁ (by simp)
    · by_cases hba : b.toNat < a.toNat
      · rw [if_pos hba] at h₂
        exact absurd h₂ (by simp)
      · have hab' : a = b := Char.ext (UInt32.ext (Nat.le_antisymm
          (Nat.le_of_not_lt hba) (Nat.le_of_not_lt hab)))
        rw [if_neg hab, if_neg hba] at h₁
        rw [if_neg hba, if_neg hab] at h₂
        rw [hab', charListLtB_conn as bs h₁ h₂]

theorem strLtB_irrefl (s : String) : strLtB s s = false :=
  charListLtB_irrefl s.data

theorem strLtB_asymm {a b : String} (h : strLtB a b = true) : strLtB b a = false :=
  charListLtB_asymm a.data b.data h

theorem strLtB_trans {a b c : String} (h₁ : strLtB a b = true) (h₂ : strLtB b c = true) :
    strLtB a c = true :=
  charListLtB_trans a.data b.data c.data h₁ h₂

theorem strLtB_conn {a b : String} (h₁ : strLtB a b = false) (h₂ : strLtB b a = false) :
    a = b :=
  String.ext (charListLtB_conn a.data b.data h₁ h₂)

instance : IsTotal JoinRow rowLE := by
  constructor
  intro a b
  by_cases h : strLtB b.order.createdAt a.order.createdAt = true
  · exact Or.inl (Or.inl h)
  · by_cases h' : strLtB a.order.createdAt b.order.createdAt = true
    · exact Or.inr (Or.inl h')
    · have he : a.order.createdAt = b.order.createdAt :=
        strLtB_conn (Bool.eq_false_iff.mpr h') (Bool.eq_false_iff.mpr h)
      rcases Nat.le_total (itemKey a.item) (itemKey b.item) with hk | hk
      · exact Or.inl (Or.inr ⟨he.symm, hk⟩)
      · exact Or.inr (Or.inr ⟨he, hk⟩)

instance : IsTrans JoinRow rowLE := by
  constructor
  intro a b c hab hbc
  rcases hab with h₁ | ⟨he₁, hk₁⟩
  · rcases hbc with h₂ | ⟨he₂, hk₂⟩
    · exact Or.inl (strLtB_trans h₂ h₁)
    · exact Or.inl (he₂ ▸ h₁)
  · rcases hbc with h₂ | ⟨he₂, hk₂⟩
    · exact Or.inl (he₁ ▸ h₂)
    · exact Or.inr ⟨he₂.trans he₁, Nat.le_trans hk₁ hk₂⟩

instance : IsAntisymm JoinRow rowLT := by
  constructor
  intro a b hab hba
  exfalso
  rcases hab with h₁ | ⟨he₁, hk₁⟩
  · rcases hba with h₂ | ⟨he₂, hk₂⟩
    · exact absurd h₂ (by simp [strLtB_asymm h₁])
    · rw [he₂] at h₁
      exact absurd h₁ (by simp [strLtB_irrefl])
  · rcases hba with h₂ | ⟨he₂, hk₂⟩
    · rw [he₁] at h₂
      exact absurd h₂ (by simp [strLtB_irrefl])
    · exact absurd (Nat.lt_trans hk₁ hk₂) (Nat.lt_irrefl _)

theorem rowLT_le {a b : JoinRow} (h : rowLT a b) : rowLE a b := by
  rcases h with h | ⟨he, hk⟩
  · exact Or.inl h
  · exact Or.inr ⟨he, Nat.le_of_lt hk⟩

theorem rowLE_lt_of_ne {a b : JoinRow} (h : rowLE a b)
    (hne : a.order.createdAt = b.order.createdAt → itemKey a.item ≠ itemKey b.item) :
    rowLT a b := by
  rcases h with h | ⟨he, hk⟩
  · exact Or.inl h
  · exact Or.inr ⟨he, Nat.lt_of_le_of_ne hk (hne he.symm)⟩

instance : IsTotal OrderRow ordLE := by
  constructor
  intro a b
  by_cases h : strLtB a.createdAt b.createdAt = true
  · exact Or.inr (Bool.eq_false_iff.mpr (by simp [strLtB_asymm h]))
  · exact Or.inl (Bool.eq_false_iff.mpr h)

instance : IsTrans OrderRow ordLE := by
  constructor
  intro a b c hab hbc
  by_cases hac : strLtB a.createdAt c.createdAt = true
  · exfalso
    by_cases hcb : strLtB c.createdAt b.createdAt = true
    · exact absurd (strLtB_trans hac hcb) (by simp [ordLE] at hab; simp [hab])
    · have : c.createdAt = b.createdAt := strLtB_conn (Bool.eq_false_iff.mpr hcb) hbc
      exact absurd (this ▸ hac) (by simp [ordLE] at hab; simp [hab])
  · exact Bool.eq_false_iff.mpr hac

/-! ## Reassembly of the sorted join rows -/

theorem ordLT_of_le_of_ne {a b : OrderRow} (h : ordLE a b) (hne : a.createdAt ≠ b.createdAt) :
    ordLT a b := by
  unfold ordLE at h
  unfold ordLT
  by_cases hba : strLtB b.createdAt a.createdAt = true
  · exact hba
  · exact absurd (strLtB_conn h (Bool.eq_false_iff.mpr hba)) hne

theorem rowsOf_nil_case {db : SqlDb} {o : OrderRow} (h : itemRowsFor db o.id = []) :
    rowsOf db o = [⟨o, none⟩] := by
  unfold rowsOf
  rw [h]
  rfl

theorem rowsOf_cons_case {db : SqlDb} {o : OrderRow} (h : itemRowsFor db o.id ≠ []) :
    rowsOf db o = (itemRowsFor db o.id).map (fun i => ⟨o, some i⟩) := by
  unfold rowsOf
  rw [if_neg (by simpa [List.isEmpty_iff] using h)]

theorem rowsOf_ne_nil (db : SqlDb) (o : OrderRow) : rowsOf db o ≠ [] := by
  by_cases h : itemRowsFor db o.id = []
  · rw [rowsOf_nil_case h]
    simp
  · rw [rowsOf_cons_case h]
    simpa using h

theorem order_of_mem_rowsOf {db : SqlDb} {o : OrderRow} {r : JoinRow}
    (h : r ∈ rowsOf db o) : r.order = o := by
  by_cases hi : itemRowsFor db o.id = []
  · rw [rowsOf_nil_case hi] at h
    simp at h
    rw [h]
  · rw [rowsOf_cons_case hi] at h
    simp at h
    obtain ⟨i, _, hr⟩ := h
    rw [← hr]

theorem pairwise_rowLT_rowsOf {db : SqlDb} (o : OrderRow)
    (hit : db.orderItems.Pairwise (fun i j => i.rowid < j.rowid)) :
    (rowsOf db o).Pairwise rowLT := by
  by_cases hi : itemRowsFor db o.id = []
  · rw [rowsOf_nil_case hi]
    simp
  · rw [rowsOf_cons_case hi]
    unfold itemRowsFor
    refine List.Pairwise.map _ ?_ (hit.filter _)
    intro a b hab
    exact Or.inr ⟨rfl, by simpa [itemKey] using hab⟩

/-- The rows of one order, grouped into the client order that the reassembly
loop produces for it. -/
theorem pushItem_append {acc : List ClientOrder} {entry : ClientOrder} {oid : String}
    (it : OrderItem) (hacc : ∀ e ∈ acc, e.id ≠ oid) (hentry : entry.id = oid) :
    pushItem (acc ++ [entry]) oid it = acc ++ [{ entry with items := entry.items ++ [it] }] := by
  unfold pushItem
  rw [List.map_append]
  congr 1
  · calc acc.map (fun o => if o.id = oid then { o with items := o.items ++ [it] } else o)
        = acc.map id := List.map_congr_left (fun e he => if_neg (hacc e he))
      _ = acc := List.map_id acc
  · simp [hentry]

theorem reassembleRows_cons_some (acc : List ClientOrder) (o : OrderRow)
    (i : OrderItemRow) (rest : List JoinRow) :
    reassembleRows acc (⟨o, some i⟩ :: rest)
      = reassembleRows
          (if i.productId = "" then
            (if acc.any (fun e => e.id = o.id) then acc
             else acc ++ [⟨o.id, o.createdAt, o.customer, []⟩])
           else pushItem
            (if acc.any (fun e => e.id = o.id) then acc
             else acc ++ [⟨o.id, o.createdAt, o.customer, []⟩])
            o.id ⟨i.productId, i.title, i.category, .int i.qty⟩) rest := rfl

theorem reassembleRows_cons_none (acc : List ClientOrder) (o : OrderRow)
    (rest : List JoinRow) :
    reassembleRows acc (⟨o, none⟩ :: rest)
      = reassembleRows
          (if acc.any (fun e => e.id = o.id) then acc
           else acc ++ [⟨o.id, o.createdAt, o.customer, []⟩]) rest := rfl

theorem reassemble_item_rows (o : OrderRow) :
    ∀ (its : List OrderItemRow) (acc : List ClientOrder) (entry : ClientOrder)
      (rest : List JoinRow), entry.id = o.id → (∀ e ∈ acc, e.id ≠ o.id) →
    reassembleRows (acc ++ [entry]) ((its.map (fun i => ⟨o, some i⟩)) ++ rest)
      = reassembleRows
          (acc ++ [{ entry with items := entry.items ++
              ((its.filter (fun i => !(i.productId = ""))).map
                (fun i => ⟨i.productId, i.title, i.category, .int i.qty⟩)) }]) rest
  | [], acc, entry, rest, hid, hacc => by simp
  | i :: its, acc, entry, rest, hid, hacc => by
    have hany : ((acc ++ [entry]).any fun e => e.id = o.id) = true := by simp [hid]
    rw [List.map_cons, List.cons_append, reassembleRows_cons_some]
    by_cases hpid : i.productId = ""
    · rw [if_pos hpid, if_pos hany]
      rw [reassemble_item_rows o its acc entry rest hid hacc]
      simp [List.filter_cons, hpid]
    · rw [if_neg hpid, if_pos hany, pushItem_append _ hacc hid]
      rw [reassemble_item_rows o its acc { entry with items := entry.items ++ [_] } rest hid hacc]
      simp [List.filter_cons, hpid]

theorem reassemble_block {db : SqlDb} {o : OrderRow} (rest : List JoinRow)
    (acc : List ClientOrder) (hacc : ∀ e ∈ acc, e.id ≠ o.id) :
    reassembleRows acc (rowsOf db o ++ rest)
      = reassembleRows (acc ++ [clientOrderOf db o]) rest := by
  have hany : (acc.any fun e => e.id = o.id) = false := by
    simp only [List.any_eq_false]
    intro e he
    simpa using hacc e he
  by_cases hi : itemRowsFor db o.id = []
  · rw [rowsOf_nil_case hi, List.singleton_append, reassembleRows_cons_none]
    rw [if_neg (by simp [hany])]
    unfold clientOrderOf
    rw [hi]
    rfl
  · rcases hits : itemRowsFor db o.id with _ | ⟨i, its⟩
    · exact absurd hits hi
    · rw [rowsOf_cons_case hi, hits, List.map_cons, List.cons_append,
        reassembleRows_cons_some]
      have hany' : ¬((acc.any fun e => e.id = o.id) = true) := by simp [hany]
      by_cases hpid : i.productId = ""
      · rw [if_pos hpid, if_neg hany']
        rw [reassemble_item_rows o its acc ⟨o.id, o.createdAt, o.customer, []⟩ rest rfl hacc]
        unfold clientOrderOf
        rw [hits]
        simp [List.filter_cons, hpid]
      · rw [if_neg hpid, if_neg hany',
          pushItem_append (⟨i.productId, i.title, i.category, .int i.qty⟩ : OrderItem) hacc rfl]
        rw [reassemble_item_rows o its acc
          { id := o.id, createdAt := o.createdAt, customer := o.customer,
            items := [] ++ [⟨i.productId, i.title, i.category, .int i.qty⟩] }
          rest rfl hacc]
        unfold clientOrderOf
        rw [hits]
        simp [List.filter_cons, hpid]

theorem reassemble_blocks (db : SqlDb) :
    ∀ (os : List OrderRow) (acc : List ClientOrder),
      (∀ e ∈ acc, ∀ o ∈ os, e.id ≠ o.id) →
      os.Pairwise (fun a b => a.id ≠ b.id) →
      reassembleRows acc (os.flatMap (rowsOf db)) = acc ++ os.map (clientOrderOf db)
  | [], acc, _, _ => by simp [reassembleRows]
  | o :: os, acc, hacc, hpair => by
    rw [List.flatMap_cons, reassemble_block _ acc (fun e he => hacc e he o (by simp))]
    rw [reassemble_blocks db os (acc ++ [clientOrderOf db o]) ?_ (List.pairwise_cons.mp hpair).2]
    · simp
    · intro e he o' ho'
      rcases List.mem_append.mp he with h | h
      · exact hacc e h o' (List.mem_cons_of_mem _ ho')
      · simp only [List.mem_singleton] at h
        rw [h]
        exact (List.pairwise_cons.mp hpair).1 o' ho'

theorem sorted_blocks_eq (db : SqlDb) (uid : String)
    (hcr : ((db.orders.filter (fun o => o.userId = uid)).map OrderRow.createdAt).Nodup)
    (hit : db.orderItems.Pairwise (fun i j => i.rowid < j.rowid)) :
    List.insertionSort rowLE (allRows db uid)
      = (List.insertionSort ordLE (db.orders.filter (fun o => o.userId = uid))).flatMap
          (rowsOf db) := by
  have hperm_os : (List.insertionSort ordLE (db.orders.filter (fun o => o.userId = uid))).Perm
      (db.orders.filter (fun o => o.userId = uid)) := List.perm_insertionSort _ _
  have hcr' : (List.insertionSort ordLE (db.orders.filter (fun o => o.userId = uid))).Pairwise
      (fun a b => a.createdAt ≠ b.createdAt) := by
    refine (hperm_os.pairwise_iff (fun h => h.symm)).mpr ?_
    exact List.pairwise_map.mp hcr
  have hlt_os : (List.insertionSort ordLE (db.orders.filter (fun o => o.userId = uid))).Pairwise
      ordLT := by
    refine ((List.sorted_insertionSort ordLE _).and hcr').imp ?_
    intro a b hab
    exact ordLT_of_le_of_ne hab.1 hab.2
  have hblocks_lt : ((List.insertionSort ordLE
      (db.orders.filter (fun o => o.userId = uid))).flatMap (rowsOf db)).Pairwise rowLT := by
    rw [List.pairwise_flatMap]
    constructor
    · intro o _
      exact pairwise_rowLT_rowsOf o hit
    · refine hlt_os.imp ?_
      intro a b hab x hx y hy
      left
      rw [order_of_mem_rowsOf hx, order_of_mem_rowsOf hy]
      exact hab
  have hperm_rows : (List.insertionSort rowLE (allRows db uid)).Perm
      ((List.insertionSort ordLE (db.orders.filter (fun o => o.userId = uid))).flatMap
        (rowsOf db)) :=
    (List.perm_insertionSort _ _).trans (hperm_os.flatMap_right (rowsOf db)).symm
  have hkeys : (List.insertionSort rowLE (allRows db uid)).Pairwise
      (fun x y => ¬(x.order.createdAt = y.order.createdAt ∧ itemKey x.item = itemKey y.item)) := by
    refine (hperm_rows.pairwise_iff (fun h hk => h ⟨hk.1.symm, hk.2.symm⟩)).mpr ?_
    refine hblocks_lt.imp ?_
    intro x y hxy hk
    rcases hxy with h | ⟨he, hlt⟩
    · rw [hk.1] at h
      exact absurd h (by simp [strLtB_irrefl])
    · rw [hk.2] at hlt
      exact Nat.lt_irrefl _ hlt
  have hlt_rows : (List.insertionSort rowLE (allRows db uid)).Pairwise rowLT := by
    refine ((List.sorted_insertionSort rowLE _).and hkeys).imp ?_
    intro x y hxy
    exact rowLE_lt_of_ne hxy.1 (fun he hk => hxy.2 ⟨he, hk⟩)
  exact List.eq_of_perm_of_sorted hperm_rows hlt_rows hblocks_lt

/-- Functional characterisation of `GET /orders/me` (SQLite variant): under
the storage invariants (distinct creation timestamps among the user's orders,
distinct order ids, item row ids strictly increasing), the endpoint returns
the user's orders sorted newest-first, each carrying its item rows in row-id
order with the empty-product-id items dropped. -/
theorem listOrdersMeSql_spec (db : SqlDb) (sid : String) (u : SanitizedUser)
    (hu : getUserFromSessionSql db (some sid) = some u)
    (hcr : ((db.orders.filter (fun o => o.userId = u.id)).map OrderRow.createdAt).Nodup)
    (hid : ((db.orders.filter (fun o => o.userId = u.id)).map OrderRow.id).Nodup)
    (hit : db.orderItems.Pairwise (fun i j => i.rowid < j.rowid)) :
    listOrdersMeSql db (some sid)
      = .ok 200 ((List.insertionSort ordLE (db.orders.filter (fun o => o.userId = u.id))).map
          (clientOrderOf db)) := by
  unfold listOrdersMeSql
  rw [hu]
  show ApiResult.ok 200 (reassembleRows [] (List.insertionSort rowLE (allRows db u.id))) = _
  have hids : (List.insertionSort ordLE (db.orders.filter (fun o => o.userId = u.id))).Pairwise
      (fun a b => a.id ≠ b.id) := by
    refine ((List.perm_insertionSort ordLE _).pairwise_iff (fun h => h.symm)).mpr ?_
    exact List.pairwise_map.mp hid
  rw [sorted_blocks_eq db u.id hcr hit]
  rw [reassemble_blocks db _ [] (by simp) hids]
  simp

/-! ## Success characterisations of the write operations -/

theorem insertOrderRow_ok {db : SqlDb} {o : OrderRow} {db' : SqlDb}
    (h : insertOrderRow db o = .ok db') :
    db' = { db with orders := db.orders ++ [o] } ∧ ∀ p ∈ db.orders, p.id ≠ o.id := by
  unfold insertOrderRow at h
  by_cases h1 : (db.orders.any fun p => p.id = o.id) = true
  · rw [if_pos h1] at h
    exact absurd h (by simp)
  · rw [if_neg h1] at h
    by_cases h2 : (db.users.any fun u => u.id = o.userId) = true
    · rw [if_pos h2] at h
      simp only [Except.ok.injEq] at h
      subst h
      refine ⟨rfl, ?_⟩
      intro p hp hpe
      exact h1 (List.any_eq_true.mpr ⟨p, hp, by simp [hpe]⟩)
    · rw [if_neg h2] at h
      exact absurd h (by simp)

theorem insertOrderItemRow_ok {db : SqlDb} {oid : String} {it : OrderItem} {db' : SqlDb}
    (h : insertOrderItemRow db oid it = .ok db') :
    db' = { db with
              orderItems := db.orderItems ++
                [⟨db.nextItemId, oid, it.id, it.title, it.category, qtyInt it.qty⟩],
              nextItemId := db.nextItemId + 1 } ∧ it.qty ≠ .nan := by
  unfold insertOrderItemRow at h
  split at h
  · exact absurd h (by simp)
  · rename_i q hq
    split at h
    · simp only [Except.ok.injEq] at h
      subst h
      exact ⟨by simp [qtyInt, hq], by simp [hq]⟩
    · exact absurd h (by simp)

theorem insertItems_ok (oid : String) :
    ∀ (its : List OrderItem) (db db' : SqlDb),
      insertItems oid db its = .ok db' →
      db'.users = db.users ∧ db'.sessions = db.sessions ∧ db'.orders = db.orders ∧
        db'.orderItems = db.orderItems ++ itemRowsFrom oid db.nextItemId its ∧
        ∀ it ∈ its, it.qty ≠ JNum.nan
  | [], db, db', h => by
    simp only [insertItems, Except.ok.injEq] at h
    subst h
    simp [itemRowsFrom]
  | it :: rest, db, db', h => by
    simp only [insertItems] at h
    cases hstep : insertOrderItemRow db oid it with
    | error e =>
      rw [hstep] at h
      exact absurd h (by simp)
    | ok db1 =>
      rw [hstep] at h
      obtain ⟨hdb1, hnan⟩ := insertOrderItemRow_ok hstep
      subst hdb1
      obtain ⟨hu, hs, ho, hoi, hnans⟩ := insertItems_ok oid rest _ db' h
      refine ⟨by simpa using hu, by simpa using hs, by simpa using ho, ?_, ?_⟩
      · rw [hoi]
        simp [itemRowsFrom, List.append_assoc]
      · intro x hx
        rcases List.mem_cons.mp hx with hx | hx
        · rw [hx]; exact hnan
        · exact hnans x hx

theorem placeOrderSql_success {nowMs : Int} {nowIso : String} {db : SqlDb}
    {sid : Option String} {body : OrderBody} {st : Nat} {co : ClientOrder} {db' : SqlDb}
    (h : placeOrderSql nowMs nowIso db sid body = (.ok st co, db')) :
    ∃ u, getUserFromSessionSql db sid = some u ∧ st = 201 ∧
      co = ⟨"DDD-" ++ toString nowMs, nowIso,
            coerceCustomer (body.customer.getD emptyCustomerBody),
            (body.items.getD []).map coerceItem⟩ ∧
      db'.users = db.users ∧ db'.sessions = db.sessions ∧
      db'.orders = db.orders ++
        [⟨"DDD-" ++ toString nowMs, u.id, nowIso,
          coerceCustomer (body.customer.getD emptyCustomerBody)⟩] ∧
      (∀ p ∈ db.orders, p.id ≠ "DDD-" ++ toString nowMs) ∧
      db'.orderItems = db.orderItems ++
        itemRowsFrom ("DDD-" ++ toString nowMs) db.nextItemId
          ((body.items.getD []).map coerceItem) ∧
      ∀ it ∈ (body.items.getD []).map coerceItem, it.qty ≠ JNum.nan := by
  unfold placeOrderSql at h
  split at h
  · simp at h
  next x u hu =>
    split at h
    · simp at h
    next hval =>
      split at h
      · simp at h
      next hlen =>
        split at h
        next x2 e hrow => simp at h
        next x2 db1 hrow =>
          split at h
          next x3 e hitems => simp at h
          next x3 db2 hitems =>
            simp only [Prod.mk.injEq, ApiResult.ok.injEq] at h
            obtain ⟨⟨hst, hco⟩, hdb⟩ := h
            obtain ⟨hdb1, hfresh⟩ := insertOrderRow_ok hrow
            subst hdb1
            obtain ⟨hu2, hs2, ho2, hoi2, hnans2⟩ := insertItems_ok _ _ _ _ hitems
            subst hdb
            exact ⟨u, hu, hst.symm, hco.symm, by simpa using hu2, by simpa using hs2,
              by simpa using ho2, hfresh, by simpa using hoi2, hnans2⟩

theorem placeOrderJson_success {nowMs : Int} {nowIso : String} {db : Db}
    {sid : Option String} {body : OrderBody} {st : Nat} {co : ClientOrder} {db' : Db}
    (h : placeOrderJson nowMs nowIso db sid body = (.ok st co, db')) :
    ∃ s sess user, sid = some s ∧ s ≠ "" ∧ db.sessions.lookup s = some sess ∧
      (db.users.find? fun u => u.id = sess.userId) = some user ∧ st = 201 ∧
      co = ⟨"DDD-" ++ toString nowMs, nowIso,
            coerceCustomer (body.customer.getD emptyCustomerBody),
            (body.items.getD []).map coerceItem⟩ ∧
      db'.users = db.users ∧ db'.sessions = db.sessions ∧
      db'.orders = db.orders ++
        [⟨"DDD-" ++ toString nowMs, nowIso, user.id,
          coerceCustomer (body.customer.getD emptyCustomerBody),
          (body.items.getD []).map coerceItem⟩] := by
  unfold placeOrderJson at h
  split at h
  · simp at h
  next x s =>
    split at h
    · simp at h
    next hs =>
      split at h
      · simp at h
      next x2 sess hsess =>
        split at h
        · simp at h
        next x3 user huser =>
          split at h
          · simp at h
          next hval =>
            split at h
            · simp at h
            next hlen =>
              simp only [Prod.mk.injEq, ApiResult.ok.injEq] at h
              obtain ⟨⟨hst, hco⟩, hdb⟩ := h
              subst hdb
              refine ⟨s, sess, user, rfl, hs, hsess, huser, hst.symm, ?_, rfl, rfl, rfl⟩
              rw [← hco]
              rfl

theorem itemRowsFrom_orderId (oid : String) :
    ∀ (n : Nat) (its : List OrderItem), ∀ r ∈ itemRowsFrom oid n its, r.orderId = oid
  | _, [], r, h => by simp [itemRowsFrom] at h
  | n, it :: rest, r, h => by
    simp only [itemRowsFrom, List.mem_cons] at h
    rcases h with h | h
    · rw [h]
    · exact itemRowsFrom_orderId oid (n + 1) rest r h

theorem itemRowsFrom_rowid_ge (oid : String) :
    ∀ (n : Nat) (its : List OrderItem), ∀ r ∈ itemRowsFrom oid n its, n ≤ r.rowid
  | _, [], r, h => by simp [itemRowsFrom] at h
  | n, it :: rest, r, h => by
    simp only [itemRowsFrom, List.mem_cons] at h
    rcases h with h | h
    · rw [h]
    · exact Nat.le_of_succ_le (itemRowsFrom_rowid_ge oid (n + 1) rest r h)

theorem itemRowsFrom_pairwise (oid : String) :
    ∀ (n : Nat) (its : List OrderItem),
      (itemRowsFrom oid n its).Pairwise (fun a b => a.rowid < b.rowid)
  | _, [] => by simp [itemRowsFrom]
  | n, it :: rest => by
    simp only [itemRowsFrom]
    refine List.Pairwise.cons ?_ (itemRowsFrom_pairwise oid (n + 1) rest)
    intro b hb
    exact Nat.lt_of_lt_of_le (Nat.lt_succ_self n) (itemRowsFrom_rowid_ge oid (n + 1) rest b hb)

theorem itemRowsFrom_roundtrip (oid : String) :
    ∀ (n : Nat) (its : List OrderItem), (∀ it ∈ its, it.qty ≠ JNum.nan) →
      ((itemRowsFrom oid n its).filter (fun i => !(i.productId = ""))).map
        (fun i => (⟨i.productId, i.title, i.category, .int i.qty⟩ : OrderItem))
      = its.filter (fun it => !(it.id = ""))
  | _, [], _ => by simp [itemRowsFrom]
  | n, it :: rest, hnan => by
    have hrec := itemRowsFrom_roundtrip oid (n + 1) rest
      (fun x hx => hnan x (List.mem_cons_of_mem _ hx))
    have hq : JNum.int (qtyInt it.qty) = it.qty := by
      cases hq : it.qty with
      | nan => exact absurd hq (hnan it (by simp))
      | int q => simp [qtyInt]
    simp only [itemRowsFrom, List.filter_cons]
    by_cases hid : it.id = ""
    · simp only [hid]
      simpa using hrec
    · simp only [List.filter_cons, hid]
      simp [hrec, hq, hid]

theorem getUserFromSessionSql_congr {db db' : SqlDb} (hu : db'.users = db.users)
    (hs : db'.sessions = db.sessions) (sid : Option String) :
    getUserFromSessionSql db' sid = getUserFromSessionSql db sid := by
  unfold getUserFromSessionSql
  cases sid with
  | none => rfl
  | some s => rw [hu, hs]

/-- Round-trip helper (SQLite variant): after a successful `placeOrder`, a
`listMyOrders` for the same session returns, for the new order id, exactly the
response's customer snapshot and the response's items with the empty-product-id
items removed. -/
theorem placeOrderSql_roundtrip {nowMs : Int} {nowIso : String} {db : SqlDb} {sid : String}
    {body : OrderBody} {st : Nat} {co : ClientOrder} {db' : SqlDb} {u : SanitizedUser}
    (h : placeOrderSql nowMs nowIso db (some sid) body = (.ok st co, db'))
    (hu : getUserFromSessionSql db (some sid) = some u)
    (hcr : ((db.orders.filter (fun o => o.userId = u.id)).map OrderRow.createdAt).Nodup)
    (hnew : ∀ o ∈ db.orders.filter (fun o => o.userId = u.id), o.createdAt ≠ nowIso)
    (hid : ((db.orders.filter (fun o => o.userId = u.id)).map OrderRow.id).Nodup)
    (hit : db.orderItems.Pairwise (fun i j => i.rowid < j.rowid))
    (hlt : ∀ i ∈ db.orderItems, i.rowid < db.nextItemId)
    (hfk : ∀ i ∈ db.orderItems, i.orderId ≠ "DDD-" ++ toString nowMs) :
    ∃ L, listOrdersMeSql db' (some sid) = .ok 200 L ∧
      L.filter (fun e => e.id = co.id)
        = [⟨co.id, co.createdAt, co.customer, co.items.filter (fun it => !(it.id = ""))⟩] := by
  obtain ⟨u', hu', hst, hco, hus, hss, hor, hfresh, hoi, hnans⟩ := placeOrderSql_success h
  rw [hu] at hu'
  cases hu'
  have hu2 : getUserFromSessionSql db' (some sid) = some u :=
    (getUserFromSessionSql_congr hus hss (some sid)).trans hu
  have hfilter' : db'.orders.filter (fun o => o.userId = u.id)
      = db.orders.filter (fun o => o.userId = u.id) ++
        [⟨"DDD-" ++ toString nowMs, u.id, nowIso,
          coerceCustomer (body.customer.getD emptyCustomerBody)⟩] := by
    rw [hor, List.filter_append]
    simp
  have hcr' : ((db'.orders.filter (fun o => o.userId = u.id)).map OrderRow.createdAt).Nodup := by
    rw [hfilter', List.map_append, List.nodup_append]
    refine ⟨hcr, by simp, ?_⟩
    intro a ha hb
    simp only [List.map_cons, List.map_nil, List.mem_singleton] at hb
    obtain ⟨o, ho, hoa⟩ := List.mem_map.mp ha
    exact hnew o ho (by rw [hoa, hb])
  have hid' : ((db'.orders.filter (fun o => o.userId = u.id)).map OrderRow.id).Nodup := by
    rw [hfilter', List.map_append, List.nodup_append]
    refine ⟨hid, by simp, ?_⟩
    intro a ha hb
    simp only [List.map_cons, List.map_nil, List.mem_singleton] at hb
    obtain ⟨o, ho, hoa⟩ := List.mem_map.mp ha
    exact hfresh o (List.mem_filter.mp ho).1 (by rw [hoa, hb])
  have hit' : db'.orderItems.Pairwise (fun i j => i.rowid < j.rowid) := by
    rw [hoi, List.pairwise_append]
    refine ⟨hit, itemRowsFrom_pairwise _ _ _, ?_⟩
    intro a ha b hb
    exact Nat.lt_of_lt_of_le (hlt a ha) (itemRowsFrom_rowid_ge _ _ _ b hb)
  refine ⟨_, listOrdersMeSql_spec db' sid u hu2 hcr' hid' hit', ?_⟩
  have hcoid : co.id = "DDD-" ++ toString nowMs := by rw [hco]
  rw [List.filter_map]
  have hfcomp : ((fun e => decide (e.id = co.id)) ∘ clientOrderOf db')
      = fun o => decide (o.id = co.id) := rfl
  rw [hfcomp]
  have hfil : (List.insertionSort ordLE (db'.orders.filter (fun o => o.userId = u.id))).filter
      (fun o => o.id = co.id)
      = [⟨"DDD-" ++ toString nowMs, u.id, nowIso,
          coerceCustomer (body.customer.getD emptyCustomerBody)⟩] := by
    have hperm : ((List.insertionSort ordLE
        (db'.orders.filter (fun o => o.userId = u.id))).filter
          (fun o => o.id = co.id)).Perm
        ((db'.orders.filter (fun o => o.userId = u.id)).filter (fun o => o.id = co.id)) :=
      (List.perm_insertionSort _ _).filter _
    have htarget : (db'.orders.filter (fun o => o.userId = u.id)).filter
        (fun o => o.id = co.id)
        = [⟨"DDD-" ++ toString nowMs, u.id, nowIso,
            coerceCustomer (body.customer.getD emptyCustomerBody)⟩] := by
      rw [hfilter', List.filter_append]
      have hnil : (db.orders.filter (fun o => o.userId = u.id)).filter
          (fun o => o.id = co.id) = [] := by
        rw [List.filter_eq_nil_iff]
        intro o ho
        simp only [hcoid, decide_eq_true_eq]
        exact hfresh o (List.mem_filter.mp ho).1
      rw [hnil]
      simp [hcoid]
    rw [htarget] at hperm
    exact (List.Perm.singleton_eq hperm.symm).symm
  rw [hfil]
  simp only [List.map_cons, List.map_nil]
  have hitems' : itemRowsFor db' ("DDD-" ++ toString nowMs)
      = itemRowsFrom ("DDD-" ++ toString nowMs) db.nextItemId
          ((body.items.getD []).map coerceItem) := by
    unfold itemRowsFor
    rw [hoi, List.filter_append]
    have h1 : db.orderItems.filter (fun i => i.orderId = "DDD-" ++ toString nowMs) = [] := by
      rw [List.filter_eq_nil_iff]
      intro i hi
      simpa using hfk i hi
    have h2 : (itemRowsFrom ("DDD-" ++ toString nowMs) db.nextItemId
        ((body.items.getD []).map coerceItem)).filter
          (fun i => i.orderId = "DDD-" ++ toString nowMs)
        = itemRowsFrom ("DDD-" ++ toString nowMs) db.nextItemId
            ((body.items.getD []).map coerceItem) := by
      rw [List.filter_eq_self]
      intro r hr
      simpa using itemRowsFrom_orderId _ _ _ r hr
    rw [h1, h2, List.nil_append]
  unfold clientOrderOf
  rw [hitems', itemRowsFrom_roundtrip _ _ _ hnans]
  rw [hco]

/-! ## Authentication-failure behaviour -/

theorem authMeJson_unauth {db : Db} {sid : Option String}
    (h : getUserFromSessionJson db sid = none) :
    authMeJson db sid = .err 401 "not authenticated" := by
  unfold authMeJson
  rw [h]

theorem authMeSql_unauth {db : SqlDb} {sid : Option String}
    (h : getUserFromSessionSql db sid = none) :
    authMeSql db sid = .err 401 "not authenticated" := by
  unfold authMeSql
  rw [h]

theorem listOrdersMeSql_unauth {db : SqlDb} {sid : Option String}
    (h : getUserFromSessionSql db sid = none) :
    listOrdersMeSql db sid = .err 401 "not authenticated" := by
  unfold listOrdersMeSql
  rw [h]

theorem placeOrderSql_unauth {nowMs : Int} {nowIso : String} {db : SqlDb} {sid : Option String}
    {body : OrderBody} (h : getUserFromSessionSql db sid = none) :
    placeOrderSql nowMs nowIso db sid body = (.err 401 "not authenticated", db) := by
  unfold placeOrderSql
  rw [h]

theorem placeOrderJson_unauth {nowMs : Int} {nowIso : String} {db : Db} {sid : Option String}
    {body : OrderBody} (h : getUserFromSessionJson db sid = none) :
    placeOrderJson nowMs nowIso db sid body = (.err 401 "not authenticated", db) := by
  cases sid with
  | none => rfl
  | some s =>
    simp only [getUserFromSessionJson] at h
    simp only [placeOrderJson]
    by_cases hs : s = ""
    · rw [if_pos hs]
    · rw [if_neg hs] at h ⊢
      cases hl : db.sessions.lookup s with
      | none => rfl
      | some sess =>
        rw [hl] at h
        simp only [] at h ⊢
        rw [h]

theorem listOrdersMeJson_unauth_none (db : Db) :
    listOrdersMeJson db none = .err 401 "not authenticated" := rfl

theorem listOrdersMeJson_unauth_session {db : Db} {s : String}
    (h : s = "" ∨ db.sessions.lookup s = none) :
    listOrdersMeJson db (some s) = .err 401 "not authenticated" := by
  simp only [listOrdersMeJson]
  rcases h with h | h
  · rw [if_pos h]
  · by_cases hs : s = ""
    · rw [if_pos hs]
    · rw [if_neg hs, h]

theorem listOrdersMeJson_ok {db : Db} {s : String} {sess : Session}
    (hs : s ≠ "") (hl : db.sessions.lookup s = some sess) :
    listOrdersMeJson db (some s)
      = .ok 200 ((db.orders.filter (fun o => o.userId = sess.userId)).map sanitizeOrder) := by
  simp only [listOrdersMeJson]
  rw [if_neg hs, hl]

/-! ## Register and login behaviour -/

theorem registerJson_success {hash : String → String} {uid sid now snow : String} {db : Db}
    {body : RegisterBody} {st : Nat} {su : SanitizedUser} {sidOut : String} {db' : Db}
    (h : registerJson hash uid sid now snow db body = (.ok st (su, sidOut), db')) :
    st = 201 ∧ sidOut = sid ∧
    jsTrim (jsToString (jsOr body.name (.str ""))) ≠ "" ∧
    normalizeEmail body.email ≠ "" ∧
    jsToString (jsOr body.password (.str "")) ≠ "" ∧
    (∀ v ∈ db.users, v.email ≠ normalizeEmail body.email) ∧
    su = ⟨uid, jsTrim (jsToString (jsOr body.name (.str ""))), normalizeEmail body.email, now⟩ ∧
    db' = { db with
      users := db.users ++ [⟨uid, jsTrim (jsToString (jsOr body.name (.str ""))),
        normalizeEmail body.email, hash (jsToString (jsOr body.password (.str ""))), now⟩],
      sessions := db.sessions ++ [(sid, ⟨uid, snow⟩)] } := by
  unfold registerJson at h
  split at h
  · simp at h
  next hval =>
    split at h
    next htaken => simp at h
    next htaken =>
      simp only [Bool.or_eq_true, decide_eq_true_eq, not_or] at hval
      simp only [Prod.mk.injEq, ApiResult.ok.injEq] at h
      obtain ⟨⟨hst, hsu, hsid⟩, hdb⟩ := h
      refine ⟨hst.symm, hsid.symm, hval.1.1, hval.1.2, hval.2, ?_, hsu.symm, hdb.symm⟩
      intro v hv hve
      exact htaken (List.any_eq_true.mpr ⟨v, hv, by simp [hve]⟩)

theorem registerJson_validation_fail {hash : String → String} {uid sid now snow : String}
    {db : Db} {body : RegisterBody}
    (h : jsTrim (jsToString (jsOr body.name (.str ""))) = "" ∨ normalizeEmail body.email = ""
      ∨ jsToString (jsOr body.password (.str "")) = "") :
    registerJson hash uid sid now snow db body
      = (.err 400 "name, email, and password are required", db) := by
  unfold registerJson
  rw [if_pos]
  rcases h with h | h | h <;> simp [h]

theorem registerSql_validation_fail {hash : String → String} {uid sid now snow : String}
    {db : SqlDb} {body : RegisterBody}
    (h : jsTrim (jsToString (jsOr body.name (.str ""))) = "" ∨ normalizeEmail body.email = ""
      ∨ jsToString (jsOr body.password (.str "")) = "") :
    registerSql hash uid sid now snow db body
      = (.err 400 "name, email, and password are required", db) := by
  unfold registerSql
  rw [if_pos]
  rcases h with h | h | h <;> simp [h]

theorem registerJson_conflict {hash : String → String} {uid sid now snow : String}
    {db : Db} {body : RegisterBody} {u0 : User}
    (hname : jsTrim (jsToString (jsOr body.name (.str ""))) ≠ "")
    (hemail : normalizeEmail body.email ≠ "")
    (hpw : jsToString (jsOr body.password (.str "")) ≠ "")
    (hmem : u0 ∈ db.users) (he : u0.email = normalizeEmail body.email) :
    registerJson hash uid sid now snow db body = (.err 409 "email already registered", db) := by
  unfold registerJson
  rw [if_neg (by simp [hname, hemail, hpw]),
    if_pos (List.any_eq_true.mpr ⟨u0, hmem, by simp [he]⟩)]

theorem registerSql_conflict {hash : String → String} {uid sid now snow : String}
    {db : SqlDb} {body : RegisterBody} {u0 : User}
    (hname : jsTrim (jsToString (jsOr body.name (.str ""))) ≠ "")
    (hemail : normalizeEmail body.email ≠ "")
    (hpw : jsToString (jsOr body.password (.str "")) ≠ "")
    (hmem : u0 ∈ db.users) (he : u0.email = normalizeEmail body.email) :
    registerSql hash uid sid now snow db body = (.err 409 "email already registered", db) := by
  unfold registerSql
  rw [if_neg (by simp [hname, hemail, hpw]),
    if_pos (List.any_eq_true.mpr ⟨u0, hmem, by simp [he]⟩)]

theorem loginJson_unknown_email {compare : String → String → Bool} {sid snow : String}
    {db : Db} {emailV passwordV : JValue}
    (hemail : normalizeEmail emailV ≠ "")
    (hpw : jsToString (jsOr passwordV (.str "")) ≠ "")
    (hfind : (db.users.find? fun u => u.email = normalizeEmail emailV) = none) :
    loginJson compare sid snow db emailV passwordV = (.err 401 "invalid credentials", db) := by
  unfold loginJson
  rw [if_neg (by simp [hemail, hpw]), hfind]

theorem loginJson_wrong_password {compare : String → String → Bool} {sid snow : String}
    {db : Db} {emailV passwordV : JValue} {user : User}
    (hemail : normalizeEmail emailV ≠ "")
    (hpw : jsToString (jsOr passwordV (.str "")) ≠ "")
    (hfind : (db.users.find? fun u => u.email = normalizeEmail emailV) = some user)
    (hcmp : compare (jsToString (jsOr passwordV (.str ""))) user.passwordHash = false) :
    loginJson compare sid snow db emailV passwordV = (.err 401 "invalid credentials", db) := by
  unfold loginJson
  rw [if_neg (by simp [hemail, hpw]), hfind]
  simp [hcmp]

theorem loginSql_unknown_email {compare : String → String → Bool} {sid snow : String}
    {db : SqlDb} {emailV passwordV : JValue}
    (hemail : normalizeEmail emailV ≠ "")
    (hpw : jsToString (jsOr passwordV (.str "")) ≠ "")
    (hfind : (db.users.find? fun u => u.email = normalizeEmail emailV) = none) :
    loginSql compare sid snow db emailV passwordV = (.err 401 "invalid credentials", db) := by
  unfold loginSql
  rw [if_neg (by simp [hemail, hpw]), hfind]

theorem loginSql_wrong_password {compare : String → String → Bool} {sid snow : String}
    {db : SqlDb} {emailV passwordV : JValue} {user : User}
    (hemail : normalizeEmail emailV ≠ "")
    (hpw : jsToString (jsOr passwordV (.str "")) ≠ "")
    (hfind : (db.users.find? fun u => u.email = normalizeEmail emailV) = some user)
    (hcmp : compare (jsToString (jsOr passwordV (.str ""))) user.passwordHash = false) :
    loginSql compare sid snow db emailV passwordV = (.err 401 "invalid credentials", db) := by
  unfold loginSql
  rw [if_neg (by simp [hemail, hpw]), hfind]
  simp [hcmp]

theorem loginJson_ok {compare : String → String → Bool} {sid snow : String}
    {db : Db} {emailV passwordV : JValue} {user : User}
    (hemail : normalizeEmail emailV ≠ "")
    (hpw : jsToString (jsOr passwordV (.str "")) ≠ "")
    (hfind : (db.users.find? fun u => u.email = normalizeEmail emailV) = some user)
    (hcmp : compare (jsToString (jsOr passwordV (.str ""))) user.passwordHash = true) :
    loginJson compare sid snow db emailV passwordV
      = (.ok 200 (sanitizeUser user, sid),
         { db with sessions := db.sessions ++ [(sid, ⟨user.id, snow⟩)] }) := by
  unfold loginJson
  rw [if_neg (by simp [hemail, hpw]), hfind]
  simp [hcmp]

/-! ## Order validation behaviour -/

theorem placeOrderJson_validation_fail {nowMs : Int} {nowIso : String} {db : Db} {s : String}
    {sess : Session} {user : User} {body : OrderBody}
    (hs : s ≠ "") (hl : db.sessions.lookup s = some sess)
    (hf : (db.users.find? fun u => u.id = sess.userId) = some user)
    (hval : (!(body.customer.getD emptyCustomerBody).name.truthy
        || !(body.customer.getD emptyCustomerBody).phone.truthy
        || !(body.customer.getD emptyCustomerBody).address.truthy) = true) :
    placeOrderJson nowMs nowIso db (some s) body
      = (.err 400 "customer name, phone, and address are required", db) := by
  simp only [placeOrderJson]
  rw [if_neg hs, hl]
  simp only []
  rw [hf]
  simp only []
  rw [if_pos hval]

theorem placeOrderJson_items_fail {nowMs : Int} {nowIso : String} {db : Db} {s : String}
    {sess : Session} {user : User} {body : OrderBody}
    (hs : s ≠ "") (hl : db.sessions.lookup s = some sess)
    (hf : (db.users.find? fun u => u.id = sess.userId) = some user)
    (hval : (!(body.customer.getD emptyCustomerBody).name.truthy
        || !(body.customer.getD emptyCustomerBody).phone.truthy
        || !(body.customer.getD emptyCustomerBody).address.truthy) = false)
    (hlen : (body.items.getD []).length = 0) :
    placeOrderJson nowMs nowIso db (some s) body
      = (.err 400 "at least one order item is required", db) := by
  simp only [placeOrderJson]
  rw [if_neg hs, hl]
  simp only []
  rw [hf]
  simp only []
  rw [if_neg (by simp [hval]), if_pos hlen]

theorem placeOrderJson_accept {nowMs : Int} {nowIso : String} {db : Db} {s : String}
    {sess : Session} {user : User} {body : OrderBody}
    (hs : s ≠ "") (hl : db.sessions.lookup s = some sess)
    (hf : (db.users.find? fun u => u.id = sess.userId) = some user)
    (hval : (!(body.customer.getD emptyCustomerBody).name.truthy
        || !(body.customer.getD emptyCustomerBody).phone.truthy
        || !(body.customer.getD emptyCustomerBody).address.truthy) = false)
    (hlen : (body.items.getD []).length ≠ 0) :
    placeOrderJson nowMs nowIso db (some s) body
      = (.ok 201 ⟨"DDD-" ++ toString nowMs, nowIso,
          coerceCustomer (body.customer.getD emptyCustomerBody),
          (body.items.getD []).map coerceItem⟩,
         { db with orders := db.orders ++
            [⟨"DDD-" ++ toString nowMs, nowIso, user.id,
              coerceCustomer (body.customer.getD emptyCustomerBody),
              (body.items.getD []).map coerceItem⟩] }) := by
  simp only [placeOrderJson]
  rw [if_neg hs, hl]
  simp only []
  rw [hf]
  simp only []
  rw [if_neg (by simp [hval]), if_neg hlen]
  rfl

theorem placeOrderSql_validation_fail {nowMs : Int} {nowIso : String} {db : SqlDb}
    {sid : Option String} {u : SanitizedUser} {body : OrderBody}
    (hu : getUserFromSessionSql db sid = some u)
    (hval : (!(body.customer.getD emptyCustomerBody).name.truthy
        || !(body.customer.getD emptyCustomerBody).phone.truthy
        || !(body.customer.getD emptyCustomerBody).address.truthy) = true) :
    placeOrderSql nowMs nowIso db sid body
      = (.err 400 "customer name, phone, and address are required", db) := by
  unfold placeOrderSql
  rw [hu]
  simp only []
  rw [if_pos hval]

theorem placeOrderSql_items_fail {nowMs : Int} {nowIso : String} {db : SqlDb}
    {sid : Option String} {u : SanitizedUser} {body : OrderBody}
    (hu : getUserFromSessionSql db sid = some u)
    (hval : (!(body.customer.getD emptyCustomerBody).name.truthy
        || !(body.customer.getD emptyCustomerBody).phone.truthy
        || !(body.customer.getD emptyCustomerBody).address.truthy) = false)
    (hlen : (body.items.getD []).length = 0) :
    placeOrderSql nowMs nowIso db sid body
      = (.err 400 "at least one order item is required", db) := by
  unfold placeOrderSql
  rw [hu]
  simp only []
  rw [if_neg (by simp [hval]), if_pos hlen]

theorem registerJson_ok {hash : String → String} {uid sid now snow : String} {db : Db}
    {body : RegisterBody}
    (hname : jsTrim (jsToString (jsOr body.name (.str ""))) ≠ "")
    (hemail : normalizeEmail body.email ≠ "")
    (hpw : jsToString (jsOr body.password (.str "")) ≠ "")
    (hfree : (db.users.any fun u => u.email = normalizeEmail body.email) = false) :
    registerJson hash uid sid now snow db body
      = (.ok 201 (⟨uid, jsTrim (jsToString (jsOr body.name (.str ""))),
            normalizeEmail body.email, now⟩, sid),
         { db with
            users := db.users ++ [⟨uid, jsTrim (jsToString (jsOr body.name (.str ""))),
              normalizeEmail body.email,
              hash (jsToString (jsOr body.password (.str ""))), now⟩],
            sessions := db.sessions ++ [(sid, ⟨uid, snow⟩)] }) := by
  unfold registerJson
  rw [if_neg (by simp [hname, hemail, hpw]), if_neg (by simp [hfree])]
  rfl

/-! ## Claim theorems -/

/-- C3 (amended): `placeOrder` rejects with a 400 `ValidationError` — leaving the
store unchanged — exactly when a *raw* `customer.name`/`phone`/`address` is falsy
(absent, empty, `0`, `false`, `null`, `NaN`) or when the items list is empty or
not an array; the truthiness check runs *before* trimming, so a whitespace-only
name, phone or address passes validation and the order is stored with that field
trimmed to the empty string. -/
theorem C3_order_validation_amended (nowMs : Int) (nowIso : String) (dbJ : Db) (dbS : SqlDb)
    (s : String) (sidS : Option String) (sess : Session) (user : User) (u : SanitizedUser)
    (body : OrderBody)
    (hs : s ≠ "") (hl : dbJ.sessions.lookup s = some sess)
    (hf : (dbJ.users.find? fun v => v.id = sess.userId) = some user)
    (hu : getUserFromSessionSql dbS sidS = some u) :
    ((!(body.customer.getD emptyCustomerBody).name.truthy
        || !(body.customer.getD emptyCustomerBody).phone.truthy
        || !(body.customer.getD emptyCustomerBody).address.truthy) = true →
      placeOrderJson nowMs nowIso dbJ (some s) body
        = (.err 400 "customer name, phone, and address are required", dbJ)
      ∧ placeOrderSql nowMs nowIso dbS sidS body
        = (.err 400 "customer name, phone, and address are required", dbS))
    ∧ ((!(body.customer.getD emptyCustomerBody).name.truthy
        || !(body.customer.getD emptyCustomerBody).phone.truthy
        || !(body.customer.getD emptyCustomerBody).address.truthy) = false →
      (body.items.getD []).length = 0 →
      placeOrderJson nowMs nowIso dbJ (some s) body
        = (.err 400 "at least one order item is required", dbJ)
      ∧ placeOrderSql nowMs nowIso dbS sidS body
        = (.err 400 "at least one order item is required", dbS))
    ∧ ((!(body.customer.getD emptyCustomerBody).name.truthy
        || !(body.customer.getD emptyCustomerBody).phone.truthy
        || !(body.customer.getD emptyCustomerBody).address.truthy) = false →
      (body.items.getD []).length ≠ 0 →
      placeOrderJson nowMs nowIso dbJ (some s) body
        = (.ok 201 ⟨"DDD-" ++ toString nowMs, nowIso,
            coerceCustomer (body.customer.getD emptyCustomerBody),
            (body.items.getD []).map coerceItem⟩,
           { dbJ with orders := dbJ.orders ++
              [⟨"DDD-" ++ toString nowMs, nowIso, user.id,
                coerceCustomer (body.customer.getD emptyCustomerBody),
                (body.items.getD []).map coerceItem⟩] })) := by
  refine ⟨fun hv => ⟨placeOrderJson_validation_fail hs hl hf hv,
      placeOrderSql_validation_fail hu hv⟩,
    fun hv hlen => ⟨placeOrderJson_items_fail hs hl hf hv hlen,
      placeOrderSql_items_fail hu hv hlen⟩,
    fun hv hlen => placeOrderJson_accept hs hl hf hv hlen⟩

/-- C3 counterexample: a whitespace-only customer name (empty after trimming,
which the claim says must be rejected with `ValidationError`) is accepted: the
request returns 201 and the snapshot is stored with `name = ""`. -/
theorem C3_counterexample_whitespace_name_accepted :
    jsTrim (jsToString (jsOr (.str " ") (.str ""))) = ""
    ∧ (placeOrderJson 7 "T1"
        ⟨[⟨"u1", "A", "a@x.com", "H", "t0"⟩], [("s1", ⟨"u1", "t0"⟩)], []⟩ (some "s1")
        ⟨some ⟨.str " ", .str "9", .undef, .str "ad", .undef, .undef, .undef, .undef⟩,
         some [⟨.str "p1", .str "T", .str "C", .num (.int 2)⟩]⟩).1
      = .ok 201 ⟨"DDD-7", "T1", ⟨"", "9", "", "ad", "", "", "", ""⟩,
          [⟨"p1", "T", "C", .int 2⟩]⟩ := by
  decide

/-- C3 witness: a request with an absent customer name is rejected with 400 in
both variants, and the store is returned unchanged. -/
theorem C3_witness :
    placeOrderJson 7 "T1" ⟨[⟨"u1", "A", "a@x.com", "H", "t0"⟩], [("s1", ⟨"u1", "t0"⟩)], []⟩
        (some "s1")
        ⟨some ⟨.undef, .str "9", .undef, .str "ad", .undef, .undef, .undef, .undef⟩,
         some [⟨.str "p1", .str "T", .str "C", .num (.int 2)⟩]⟩
      = (.err 400 "customer name, phone, and address are required",
         ⟨[⟨"u1", "A", "a@x.com", "H", "t0"⟩], [("s1", ⟨"u1", "t0"⟩)], []⟩)
    ∧ placeOrderSql 7 "T1" ⟨[⟨"u1", "A", "a@x.com", "H", "t0"⟩], [("s1", ⟨"u1", "t0"⟩)],
          [], [], 1⟩ (some "s1")
        ⟨some ⟨.undef, .str "9", .undef, .str "ad", .undef, .undef, .undef, .undef⟩,
         some [⟨.str "p1", .str "T", .str "C", .num (.int 2)⟩]⟩
      = (.err 400 "customer name, phone, and address are required",
         ⟨[⟨"u1", "A", "a@x.com", "H", "t0"⟩], [("s1", ⟨"u1", "t0"⟩)], [], [], 1⟩) :=
  (C3_order_validation_amended 7 "T1"
    ⟨[⟨"u1", "A", "a@x.com", "H", "t0"⟩], [("s1", ⟨"u1", "t0"⟩)], []⟩
    ⟨[⟨"u1", "A", "a@x.com", "H", "t0"⟩], [("s1", ⟨"u1", "t0"⟩)], [], [], 1⟩
    "s1" (some "s1") ⟨"u1", "t0"⟩ ⟨"u1", "A", "a@x.com", "H", "t0"⟩
    ⟨"u1", "A", "a@x.com", "t0"⟩
    ⟨some ⟨.undef, .str "9", .undef, .str "ad", .undef, .undef, .undef, .undef⟩,
     some [⟨.str "p1", .str "T", .str "C", .num (.int 2)⟩]⟩
    (by decide) (by decide) (by decide) (by decide)).1 (by decide)

/-- C4 (amended): `register` fails with a 400 `ValidationError` — before any
uniqueness check and without touching the store — exactly when the trimmed name,
the trimmed lowercased email, or the *untrimmed* password is empty; the password
is not trimmed before the check, so a whitespace-only password passes validation
and registration succeeds (the claim's rejection of whitespace-only passwords
does not hold). -/
theorem C4_register_validation_amended (hash : String → String)
    (uid sid now snow : String) (dbJ : Db) (dbS : SqlDb) (body : RegisterBody) :
    (jsTrim (jsToString (jsOr body.name (.str ""))) = "" ∨ normalizeEmail body.email = ""
      ∨ jsToString (jsOr body.password (.str "")) = "" →
      registerJson hash uid sid now snow dbJ body
        = (.err 400 "name, email, and password are required", dbJ)
      ∧ registerSql hash uid sid now snow dbS body
        = (.err 400 "name, email, and password are required", dbS))
    ∧ (jsTrim (jsToString (jsOr body.name (.str ""))) ≠ "" →
      normalizeEmail body.email ≠ "" →
      jsToString (jsOr body.password (.str "")) ≠ "" →
      (dbJ.users.any fun u => u.email = normalizeEmail body.email) = false →
      registerJson hash uid sid now snow dbJ body
        = (.ok 201 (⟨uid, jsTrim (jsToString (jsOr body.name (.str ""))),
              normalizeEmail body.email, now⟩, sid),
           { dbJ with
              users := dbJ.users ++ [⟨uid, jsTrim (jsToString (jsOr body.name (.str ""))),
                normalizeEmail body.email,
                hash (jsToString (jsOr body.password (.str ""))), now⟩],
              sessions := dbJ.sessions ++ [(sid, ⟨uid, snow⟩)] })) :=
  ⟨fun h => ⟨registerJson_validation_fail h, registerSql_validation_fail h⟩,
   fun hname hemail hpw hfree => registerJson_ok hname hemail hpw hfree⟩

/-- C4 counterexample: a whitespace-only password (empty after trimming, which
the claim says must be rejected) is accepted: registration returns 201 and the
user is stored. -/
theorem C4_counterexample_whitespace_password_accepted :
    jsTrim " " = ""
    ∧ (registerJson (fun p => "H(" ++ p ++ ")") "u1" "s1" "t1" "t2" ⟨[], [], []⟩
        ⟨.str "A", .str "a@x.com", .str " "⟩).1
      = .ok 201 (⟨"u1", "A", "a@x.com", "t1"⟩, "s1") := by
  decide

/-- C4 witness: an empty password is rejected with 400 by both variants even when
the email is already registered (validation precedes the uniqueness check), and
the store is returned unchanged. -/
theorem C4_witness :
    registerJson (fun p => "H(" ++ p ++ ")") "u2" "s2" "t1" "t2"
        ⟨[⟨"u1", "A", "a@x.com", "H", "t0"⟩], [], []⟩ ⟨.str "B", .str "a@x.com", .str ""⟩
      = (.err 400 "name, email, and password are required",
         ⟨[⟨"u1", "A", "a@x.com", "H", "t0"⟩], [], []⟩)
    ∧ registerSql (fun p => "H(" ++ p ++ ")") "u2" "s2" "t1" "t2"
        ⟨[⟨"u1", "A", "a@x.com", "H", "t0"⟩], [], [], [], 1⟩
        ⟨.str "B", .str "a@x.com", .str ""⟩
      = (.err 400 "name, email, and password are required",
         ⟨[⟨"u1", "A", "a@x.com", "H", "t0"⟩], [], [], [], 1⟩) :=
  (C4_register_validation_amended (fun p => "H(" ++ p ++ ")") "u2" "s2" "t1" "t2"
    ⟨[⟨"u1", "A", "a@x.com", "H", "t0"⟩], [], []⟩
    ⟨[⟨"u1", "A", "a@x.com", "H", "t0"⟩], [], [], [], 1⟩
    ⟨.str "B", .str "a@x.com", .str ""⟩).1 (by decide)

/-- C6: if a user with the same normalized (trimmed, lowercased) email is
already stored, `register` — given otherwise valid fields, in any letter case
and with any surrounding whitespace on the email — fails with a 409
`ConflictError` and returns the store unchanged (no second user, no new
session), in both variants. -/
theorem C6_register_conflict (hash : String → String) (uid sid now snow : String)
    (dbJ : Db) (dbS : SqlDb) (body : RegisterBody) (u0 v0 : User)
    (hname : jsTrim (jsToString (jsOr body.name (.str ""))) ≠ "")
    (hemail : normalizeEmail body.email ≠ "")
    (hpw : jsToString (jsOr body.password (.str "")) ≠ "")
    (hmemJ : u0 ∈ dbJ.users) (heJ : u0.email = normalizeEmail body.email)
    (hmemS : v0 ∈ dbS.users) (heS : v0.email = normalizeEmail body.email) :
    registerJson hash uid sid now snow dbJ body = (.err 409 "email already registered", dbJ)
    ∧ registerSql hash uid sid now snow dbS body
      = (.err 409 "email already registered", dbS) :=
  ⟨registerJson_conflict hname hemail hpw hmemJ heJ,
   registerSql_conflict hname hemail hpw hmemS heS⟩

/-- C6 witness: registering `" A@X.Com "` when `a@x.com` is taken yields 409 in
both variants with the store unchanged. -/
theorem C6_witness :
    registerJson (fun p => "H(" ++ p ++ ")") "u2" "s2" "t1" "t2"
        ⟨[⟨"u1", "A", "a@x.com", "H", "t0"⟩], [], []⟩
        ⟨.str "B", .str " A@X.Com ", .str "pw"⟩
      = (.err 409 "email already registered", ⟨[⟨"u1", "A", "a@x.com", "H", "t0"⟩], [], []⟩)
    ∧ registerSql (fun p => "H(" ++ p ++ ")") "u2" "s2" "t1" "t2"
        ⟨[⟨"u1", "A", "a@x.com", "H", "t0"⟩], [], [], [], 1⟩
        ⟨.str "B", .str " A@X.Com ", .str "pw"⟩
      = (.err 409 "email already registered",
         ⟨[⟨"u1", "A", "a@x.com", "H", "t0"⟩], [], [], [], 1⟩) :=
  C6_register_conflict (fun p => "H(" ++ p ++ ")") "u2" "s2" "t1" "t2"
    ⟨[⟨"u1", "A", "a@x.com", "H", "t0"⟩], [], []⟩
    ⟨[⟨"u1", "A", "a@x.com", "H", "t0"⟩], [], [], [], 1⟩
    ⟨.str "B", .str " A@X.Com ", .str "pw"⟩
    ⟨"u1", "A", "a@x.com", "H", "t0"⟩ ⟨"u1", "A", "a@x.com", "H", "t0"⟩
    (by decide) (by decide) (by decide) (by decide) (by decide) (by decide) (by decide)

/-- C5: the two login failure modes — unknown (normalized) email, and known
email with failing hash verification — produce the *same* observable result:
the generic 401 `invalid credentials` error with the store unchanged, in both
variants; and a login with correct credentials for a registered email, in any
letter case, succeeds and issues a fresh session. -/
theorem C5_login_indistinguishable (compare : String → String → Bool)
    (hash : String → String) (uid sid1 snow1 sid2 snow2 sidR nowR snowR sidL snowL : String)
    (db1 db2 dbJ : Db) (dbS1 dbS2 : SqlDb) (e1 p1 e2 p2 eL pL : JValue)
    (u2 uS2 : User) (body : RegisterBody) (st : Nat) (su : SanitizedUser)
    (sidOut : String) (db1' : Db)
    (he1 : normalizeEmail e1 ≠ "") (hp1 : jsToString (jsOr p1 (.str "")) ≠ "")
    (hf1 : (db1.users.find? fun u => u.email = normalizeEmail e1) = none)
    (hf1S : (dbS1.users.find? fun u => u.email = normalizeEmail e1) = none)
    (he2 : normalizeEmail e2 ≠ "") (hp2 : jsToString (jsOr p2 (.str "")) ≠ "")
    (hf2 : (db2.users.find? fun u => u.email = normalizeEmail e2) = some u2)
    (hc2 : compare (jsToString (jsOr p2 (.str ""))) u2.passwordHash = false)
    (hf2S : (dbS2.users.find? fun u => u.email = normalizeEmail e2) = some uS2)
    (hc2S : compare (jsToString (jsOr p2 (.str ""))) uS2.passwordHash = false)
    (hreg : registerJson hash uid sidR nowR snowR dbJ body = (.ok st (su, sidOut), db1'))
    (hE : normalizeEmail eL = normalizeEmail body.email)
    (hP : jsToString (jsOr pL (.str "")) = jsToString (jsOr body.password (.str "")))
    (hcomp : ∀ p, compare p (hash p) = true) :
    loginJson compare sid1 snow1 db1 e1 p1 = (.err 401 "invalid credentials", db1)
    ∧ loginJson compare sid2 snow2 db2 e2 p2 = (.err 401 "invalid credentials", db2)
    ∧ (loginJson compare sid1 snow1 db1 e1 p1).1 = (loginJson compare sid2 snow2 db2 e2 p2).1
    ∧ loginSql compare sid1 snow1 dbS1 e1 p1 = (.err 401 "invalid credentials", dbS1)
    ∧ loginSql compare sid2 snow2 dbS2 e2 p2 = (.err 401 "invalid credentials", dbS2)
    ∧ loginJson compare sidL snowL db1' eL pL
        = (.ok 200 (su, sidL),
           { db1' with sessions := db1'.sessions ++ [(sidL, ⟨su.id, snowL⟩)] }) := by
  have h1 := @loginJson_unknown_email compare sid1 snow1 db1 e1 p1 he1 hp1 hf1
  have h2 := @loginJson_wrong_password compare sid2 snow2 db2 e2 p2 u2 he2 hp2 hf2 hc2
  refine ⟨h1, h2, by rw [h1, h2], loginSql_unknown_email he1 hp1 hf1S,
    loginSql_wrong_password he2 hp2 hf2S hc2S, ?_⟩
  obtain ⟨hst, hsid, hname, hemail, hpw, hff, hsu, hdb⟩ := registerJson_success hreg
  have hfind : (db1'.users.find? fun u => u.email = normalizeEmail eL)
      = some ⟨uid, jsTrim (jsToString (jsOr body.name (.str ""))),
          normalizeEmail body.email, hash (jsToString (jsOr body.password (.str ""))), nowR⟩ := by
    rw [hdb, hE]
    show ((dbJ.users ++ [_]).find? _) = _
    rw [List.find?_append]
    have hnone : (dbJ.users.find? fun u => u.email = normalizeEmail body.email) = none :=
      List.find?_eq_none.mpr (fun x hx => by simp [hff x hx])
    rw [hnone]
    simp [List.find?]
  have := @loginJson_ok compare sidL snowL db1' eL pL _
    (hE ▸ hemail) (hP ▸ hpw) hfind (by rw [hP]; exact hcomp _)
  rw [this, hsu]
  rfl

/-- C5 witness: concrete db with one registered user; the unknown-email and
wrong-password logins return identical 401 errors, and a case-variant login
with the right password succeeds with a fresh session. -/
theorem C5_witness :
    loginJson (fun p h => h == "H(" ++ p ++ ")") "sA" "tA"
        ⟨[⟨"u1", "A", "a@x.com", "H(pw)", "t0"⟩], [], []⟩ (.str "nouser@x.com") (.str "w")
      = (.err 401 "invalid credentials", ⟨[⟨"u1", "A", "a@x.com", "H(pw)", "t0"⟩], [], []⟩)
    ∧ loginJson (fun p h => h == "H(" ++ p ++ ")") "sB" "tB"
        ⟨[⟨"u1", "A", "a@x.com", "H(pw)", "t0"⟩], [], []⟩ (.str "a@x.com") (.str "wrong")
      = (.err 401 "invalid credentials", ⟨[⟨"u1", "A", "a@x.com", "H(pw)", "t0"⟩], [], []⟩)
    ∧ (loginJson (fun p h => h == "H(" ++ p ++ ")") "sA" "tA"
        ⟨[⟨"u1", "A", "a@x.com", "H(pw)", "t0"⟩], [], []⟩ (.str "nouser@x.com") (.str "w")).1
      = (loginJson (fun p h => h == "H(" ++ p ++ ")") "sB" "tB"
        ⟨[⟨"u1", "A", "a@x.com", "H(pw)", "t0"⟩], [], []⟩ (.str "a@x.com") (.str "wrong")).1
    ∧ loginSql (fun p h => h == "H(" ++ p ++ ")") "sA" "tA"
        ⟨[⟨"u1", "A", "a@x.com", "H(pw)", "t0"⟩], [], [], [], 1⟩
        (.str "nouser@x.com") (.str "w")
      = (.err 401 "invalid credentials",
         ⟨[⟨"u1", "A", "a@x.com", "H(pw)", "t0"⟩], [], [], [], 1⟩)
    ∧ loginSql (fun p h => h == "H(" ++ p ++ ")") "sB" "tB"
        ⟨[⟨"u1", "A", "a@x.com", "H(pw)", "t0"⟩], [], [], [], 1⟩
        (.str "a@x.com") (.str "wrong")
      = (.err 401 "invalid credentials",
         ⟨[⟨"u1", "A", "a@x.com", "H(pw)", "t0"⟩], [], [], [], 1⟩)
    ∧ loginJson (fun p h => h == "H(" ++ p ++ ")") "sL" "tL"
        ((registerJson (fun p => "H(" ++ p ++ ")") "u2" "sR" "t1" "t2" ⟨[], [], []⟩
          ⟨.str "B", .str "b@x.com", .str "pw"⟩).2) (.str " B@X.COM ") (.str "pw")
      = (.ok 200 (⟨"u2", "B", "b@x.com", "t1"⟩, "sL"),
         { (registerJson (fun p => "H(" ++ p ++ ")") "u2" "sR" "t1" "t2" ⟨[], [], []⟩
            ⟨.str "B", .str "b@x.com", .str "pw"⟩).2 with
           sessions := ((registerJson (fun p => "H(" ++ p ++ ")") "u2" "sR" "t1" "t2"
              ⟨[], [], []⟩ ⟨.str "B", .str "b@x.com", .str "pw"⟩).2).sessions
             ++ [("sL", ⟨"u2", "tL"⟩)] }) :=
  C5_login_indistinguishable (fun p h => h == "H(" ++ p ++ ")") (fun p => "H(" ++ p ++ ")")
    "u2" "sA" "tA" "sB" "tB" "sR" "t1" "t2" "sL" "tL"
    ⟨[⟨"u1", "A", "a@x.com", "H(pw)", "t0"⟩], [], []⟩
    ⟨[⟨"u1", "A", "a@x.com", "H(pw)", "t0"⟩], [], []⟩
    ⟨[], [], []⟩
    ⟨[⟨"u1", "A", "a@x.com", "H(pw)", "t0"⟩], [], [], [], 1⟩
    ⟨[⟨"u1", "A", "a@x.com", "H(pw)", "t0"⟩], [], [], [], 1⟩
    (.str "nouser@x.com") (.str "w") (.str "a@x.com") (.str "wrong")
    (.str " B@X.COM ") (.str "pw")
    ⟨"u1", "A", "a@x.com", "H(pw)", "t0"⟩ ⟨"u1", "A", "a@x.com", "H(pw)", "t0"⟩
    ⟨.str "B", .str "b@x.com", .str "pw"⟩ 201 ⟨"u2", "B", "b@x.com", "t1"⟩ "sR"
    ((registerJson (fun p => "H(" ++ p ++ ")") "u2" "sR" "t1" "t2" ⟨[], [], []⟩
      ⟨.str "B", .str "b@x.com", .str "pw"⟩).2)
    (by decide) (by decide) (by decide) (by decide) (by decide) (by decide) (by decide)
    (by decide) (by decide) (by decide) (by decide) (by decide) (by decide)
    (fun p => by simp)

/-- C7 (amended): every protected operation fails with 401 and performs no
store write when the session resolution is absent — i.e. when no session id is
supplied, the id is not in the store, or (for the operations that look the user
up) the owning user no longer exists.  `GET /auth/me` and `POST /orders` check
all three conditions in both variants, as does `GET /orders/me` in the SQLite
variant; the JSON-file variant's `GET /orders/me` checks only that the cookie
is present and the session exists — it does not verify the owning user. -/
theorem C7_unauthenticated_amended (nowMs : Int) (nowIso : String) (dbJ : Db) (dbS : SqlDb)
    (sidJ sidS : Option String) (s : String) (body bodyS : OrderBody)
    (hJ : getUserFromSessionJson dbJ sidJ = none)
    (hS : getUserFromSessionSql dbS sidS = none) :
    authMeJson dbJ sidJ = .err 401 "not authenticated"
    ∧ placeOrderJson nowMs nowIso dbJ sidJ body = (.err 401 "not authenticated", dbJ)
    ∧ authMeSql dbS sidS = .err 401 "not authenticated"
    ∧ placeOrderSql nowMs nowIso dbS sidS bodyS = (.err 401 "not authenticated", dbS)
    ∧ listOrdersMeSql dbS sidS = .err 401 "not authenticated"
    ∧ listOrdersMeJson dbJ none = .err 401 "not authenticated"
    ∧ (s = "" ∨ dbJ.sessions.lookup s = none →
        listOrdersMeJson dbJ (some s) = .err 401 "not authenticated") :=
  ⟨authMeJson_unauth hJ, placeOrderJson_unauth hJ, authMeSql_unauth hS,
   placeOrderSql_unauth hS, listOrdersMeSql_unauth hS, listOrdersMeJson_unauth_none dbJ,
   fun h => listOrdersMeJson_unauth_session h⟩

/-- C7 counterexample: with a session whose owning user no longer exists, the
JSON-file variant's `GET /orders/me` does NOT fail with 401 as the claim
requires — it answers 200 with the dangling session's order list. -/
theorem C7_counterexample_json_orders_me_dangling_session :
    (Db.mk [] [("s1", ⟨"ghost", "t0"⟩)] []).users.find? (fun u => u.id = "ghost") = none
    ∧ getUserFromSessionJson ⟨[], [("s1", ⟨"ghost", "t0"⟩)], []⟩ (some "s1") = none
    ∧ listOrdersMeJson ⟨[], [("s1", ⟨"ghost", "t0"⟩)], []⟩ (some "s1") = .ok 200 [] := by
  decide

/-- C7 witness: with no session cookie and with an unknown session id, all
protected operations answer 401 and return the store unchanged. -/
theorem C7_witness :
    authMeJson ⟨[], [], []⟩ none = .err 401 "not authenticated"
    ∧ placeOrderJson 7 "T1" ⟨[], [], []⟩ none ⟨none, none⟩
      = (.err 401 "not authenticated", ⟨[], [], []⟩)
    ∧ authMeSql ⟨[], [], [], [], 1⟩ (some "zz") = .err 401 "not authenticated"
    ∧ placeOrderSql 7 "T1" ⟨[], [], [], [], 1⟩ (some "zz") ⟨none, none⟩
      = (.err 401 "not authenticated", ⟨[], [], [], [], 1⟩)
    ∧ listOrdersMeSql ⟨[], [], [], [], 1⟩ (some "zz") = .err 401 "not authenticated"
    ∧ listOrdersMeJson ⟨[], [], []⟩ none = .err 401 "not authenticated"
    ∧ ("zz" = "" ∨ (Db.mk [] [] []).sessions.lookup "zz" = none →
        listOrdersMeJson ⟨[], [], []⟩ (some "zz") = .err 401 "not authenticated") :=
  C7_unauthenticated_amended 7 "T1" ⟨[], [], []⟩ ⟨[], [], [], [], 1⟩ none (some "zz") "zz"
    ⟨none, none⟩ ⟨none, none⟩ (by decide) (by decide)

/-- C8 (amended): an accepted item's stored quantity is `Number(qty || 0)` with
no range or type validation: a falsy quantity input coerces to 0, an integer
input (including a negative one) is stored unchanged, and a truthy non-numeric
string coerces to NaN rather than 0; the request is not rejected because of the
quantity, and a successful JSON-variant `placeOrder` stores exactly these
coerced items. -/
theorem C8_quantity_coercion_amended (nowMs : Int) (nowIso : String) (dbJ : Db)
    (sid : Option String) (body : OrderBody) (st : Nat) (co : ClientOrder) (db' : Db) :
    (∀ it : ItemBody, it.qty.truthy = false → (coerceItem it).qty = .int 0)
    ∧ (∀ (it : ItemBody) (n : Int), it.qty = .num (.int n) → (coerceItem it).qty = .int n)
    ∧ (∀ (it : ItemBody) (s : String), it.qty = .str s → parseJsNumber s = .nan →
        (coerceItem it).qty = .nan)
    ∧ (placeOrderJson nowMs nowIso dbJ sid body = (.ok st co, db') →
        co.items = (body.items.getD []).map coerceItem
        ∧ ∃ uid, db'.orders = dbJ.orders ++
            [⟨"DDD-" ++ toString nowMs, nowIso, uid,
              coerceCustomer (body.customer.getD emptyCustomerBody),
              (body.items.getD []).map coerceItem⟩]) := by
  refine ⟨?_, ?_, ?_, ?_⟩
  · intro it hq
    simp [coerceItem, jsOr, hq, jsToNumber]
  · intro it n hq
    by_cases hn : n = 0
    · simp [coerceItem, jsOr, hq, hn, JValue.truthy, jsToNumber]
    · simp [coerceItem, jsOr, hq, JValue.truthy, hn, jsToNumber]
  · intro it s hq hnan
    have hs : s ≠ "" := by
      intro he
      rw [he] at hnan
      exact absurd hnan (by decide)
    simp [coerceItem, jsOr, hq, JValue.truthy, hs, jsToNumber, hnan]
  · intro h
    obtain ⟨s, sess, user, _, _, _, _, _, hco, _, _, ho⟩ := placeOrderJson_success h
    exact ⟨by rw [hco], user.id, ho⟩

/-- C8 counterexample: a negative quantity is accepted and stored as a negative
number (the claim requires stored quantities to be non-negative), and a truthy
non-numeric quantity coerces to NaN, not 0. -/
theorem C8_counterexample_negative_qty_stored :
    ((placeOrderJson 7 "T1"
        ⟨[⟨"u1", "A", "a@x.com", "H", "t0"⟩], [("s1", ⟨"u1", "t0"⟩)], []⟩ (some "s1")
        ⟨some ⟨.str "N", .str "9", .undef, .str "ad", .undef, .undef, .undef, .undef⟩,
         some [⟨.str "p1", .str "T", .str "C", .num (.int (-5))⟩]⟩).2.orders.map
      (fun o => o.items.map OrderItem.qty)) = [[.int (-5)]]
    ∧ ¬((0 : Int) ≤ -5)
    ∧ (coerceItem ⟨.str "p1", .str "T", .str "C", .str "abc"⟩).qty = .nan
    ∧ JNum.nan ≠ .int 0 := by
  decide

/-- C8 witness: the quantity coercions evaluated at concrete inputs, and a
concrete successful order storing a coerced item list. -/
theorem C8_witness :
    (coerceItem ⟨.str "p1", .str "T", .str "C", .undef⟩).qty = .int 0
    ∧ (coerceItem ⟨.str "p1", .str "T", .str "C", .num (.int 3)⟩).qty = .int 3
    ∧ (coerceItem ⟨.str "p1", .str "T", .str "C", .str "abc"⟩).qty = .nan
    ∧ ((placeOrderJson 7 "T1"
        ⟨[⟨"u1", "A", "a@x.com", "H", "t0"⟩], [("s1", ⟨"u1", "t0"⟩)], []⟩ (some "s1")
        ⟨some ⟨.str "N", .str "9", .undef, .str "ad", .undef, .undef, .undef, .undef⟩,
         some [⟨.str "p1", .str "T", .str "C", .num (.int 3)⟩]⟩).1 matches
        ApiResult.ok 201 _) := by
  refine ⟨(C8_quantity_coercion_amended 7 "T1"
      ⟨[⟨"u1", "A", "a@x.com", "H", "t0"⟩], [("s1", ⟨"u1", "t0"⟩)], []⟩ (some "s1")
      ⟨none, none⟩ 0 ⟨"", "", ⟨"", "", "", "", "", "", "", ""⟩, []⟩
      ⟨[], [], []⟩).1 ⟨.str "p1", .str "T", .str "C", .undef⟩ (by decide),
    (C8_quantity_coercion_amended 7 "T1"
      ⟨[⟨"u1", "A", "a@x.com", "H", "t0"⟩], [("s1", ⟨"u1", "t0"⟩)], []⟩ (some "s1")
      ⟨none, none⟩ 0 ⟨"", "", ⟨"", "", "", "", "", "", "", ""⟩, []⟩
      ⟨[], [], []⟩).2.1 ⟨.str "p1", .str "T", .str "C", .num (.int 3)⟩ 3 (by decide),
    (C8_quantity_coercion_amended 7 "T1"
      ⟨[⟨"u1", "A", "a@x.com", "H", "t0"⟩], [("s1", ⟨"u1", "t0"⟩)], []⟩ (some "s1")
      ⟨none, none⟩ 0 ⟨"", "", ⟨"", "", "", "", "", "", "", ""⟩, []⟩
      ⟨[], [], []⟩).2.2.1 ⟨.str "p1", .str "T", .str "C", .str "abc"⟩ "abc" (by decide)
      (by decide),
    by decide⟩

theorem placeOrderSql_err {nowMs : Int} {nowIso : String} {db : SqlDb}
    {sid : Option String} {body : OrderBody} {stE : Nat} {msg : String} {db' : SqlDb}
    (h : placeOrderSql nowMs nowIso db sid body = (.err stE msg, db')) : db' = db := by
  unfold placeOrderSql at h
  split at h
  · simp only [Prod.mk.injEq] at h
    exact h.2.symm
  next x u hu =>
    split at h
    · simp only [Prod.mk.injEq] at h
      exact h.2.symm
    next hval =>
      split at h
      · simp only [Prod.mk.injEq] at h
        exact h.2.symm
      next hlen =>
        split at h
        next x2 e hrow =>
          simp only [Prod.mk.injEq] at h
          exact h.2.symm
        next x2 db1 hrow =>
          split at h
          next x3 e hitems =>
            simp only [Prod.mk.injEq] at h
            exact h.2.symm
          next x3 db2 hitems =>
            simp at h

/-- C9 (amended): in the SQLite variant, order-id uniqueness is enforced by the
`orders.id PRIMARY KEY` constraint: any `placeOrder` call preserves
pairwise-distinct order ids, a successful call implies no stored order already
had the new time-derived id, and a call whose time-derived id collides with a
stored order fails with 500 leaving the store unchanged.  In the JSON-file
variant, nothing enforces uniqueness and two calls in the same clock tick store
two distinct orders with the same id. -/
theorem C9_order_id_uniqueness_amended (nowMs : Int) (nowIso : String) (db : SqlDb)
    (sid : Option String) (body : OrderBody) (res : ApiResult ClientOrder) (db' : SqlDb)
    (h : placeOrderSql nowMs nowIso db sid body = (res, db'))
    (hnodup : (db.orders.map OrderRow.id).Nodup) :
    (db'.orders.map OrderRow.id).Nodup
    ∧ (∀ st co, res = .ok st co → ∀ p ∈ db.orders, p.id ≠ "DDD-" ++ toString nowMs)
    ∧ (∀ u, getUserFromSessionSql db sid = some u →
        (!(body.customer.getD emptyCustomerBody).name.truthy
          || !(body.customer.getD emptyCustomerBody).phone.truthy
          || !(body.customer.getD emptyCustomerBody).address.truthy) = false →
        (body.items.getD []).length ≠ 0 →
        (∃ p ∈ db.orders, p.id = "DDD-" ++ toString nowMs) →
        placeOrderSql nowMs nowIso db sid body = (.err 500 "internal server error", db)) := by
  refine ⟨?_, ?_, ?_⟩
  · cases res with
    | err stE msg =>
      rw [placeOrderSql_err h]
      exact hnodup
    | ok st co =>
      obtain ⟨u, _, _, _, _, _, ho, hfresh, _, _⟩ := placeOrderSql_success h
      rw [ho, List.map_append, List.nodup_append]
      refine ⟨hnodup, by simp, ?_⟩
      intro a ha hb
      simp only [List.map_cons, List.map_nil, List.mem_singleton] at hb
      obtain ⟨p, hp, hpa⟩ := List.mem_map.mp ha
      exact hfresh p hp (by rw [hpa, hb])
  · intro st co hres
    subst hres
    obtain ⟨u, _, _, _, _, _, _, hfresh, _, _⟩ := placeOrderSql_success h
    exact hfresh
  · intro u hu hval hlen ⟨p, hp, hpe⟩
    unfold placeOrderSql
    rw [hu]
    simp only []
    rw [if_neg (by simp [hval]), if_neg hlen]
    have hdup : (db.orders.any fun q => q.id = "DDD-" ++ toString nowMs) = true :=
      List.any_eq_true.mpr ⟨p, hp, by simp [hpe]⟩
    unfold insertOrderRow
    rw [if_pos hdup]

/-- C9 counterexample: in the JSON-file variant, two `placeOrder` calls in the
same clock tick both succeed and store two distinct orders carrying the same
time-derived id — uniqueness is violated. -/
theorem C9_counterexample_json_same_tick_collision :
    ((placeOrderJson 5 "T1"
        (placeOrderJson 5 "T1"
          ⟨[⟨"u1", "A", "a@x.com", "H", "t0"⟩], [("s1", ⟨"u1", "t0"⟩)], []⟩ (some "s1")
          ⟨some ⟨.str "N", .str "9", .undef, .str "ad", .undef, .undef, .undef, .undef⟩,
           some [⟨.str "p1", .str "T1", .str "C", .num (.int 1)⟩]⟩).2 (some "s1")
        ⟨some ⟨.str "N", .str "9", .undef, .str "ad", .undef, .undef, .undef, .undef⟩,
         some [⟨.str "p2", .str "T2", .str "C", .num (.int 1)⟩]⟩).2.orders.map
      (fun o => o.id)) = ["DDD-5", "DDD-5"]
    ∧ ((placeOrderJson 5 "T1"
        (placeOrderJson 5 "T1"
          ⟨[⟨"u1", "A", "a@x.com", "H", "t0"⟩], [("s1", ⟨"u1", "t0"⟩)], []⟩ (some "s1")
          ⟨some ⟨.str "N", .str "9", .undef, .str "ad", .undef, .undef, .undef, .undef⟩,
           some [⟨.str "p1", .str "T1", .str "C", .num (.int 1)⟩]⟩).2 (some "s1")
        ⟨some ⟨.str "N", .str "9", .undef, .str "ad", .undef, .undef, .undef, .undef⟩,
         some [⟨.str "p2", .str "T2", .str "C", .num (.int 1)⟩]⟩).2.orders).Nodup := by
  decide

/-- C9 witness: a SQLite `placeOrder` call preserving id-nodup, its success
implying freshness, and the same-tick duplicate failing with 500. -/
theorem C9_witness :
    (((placeOrderSql 5 "T2"
        ⟨[⟨"u1", "A", "a@x.com", "H", "t0"⟩], [("s1", ⟨"u1", "t0"⟩)],
         [⟨"DDD-5", "u1", "T1", ⟨"n", "9", "", "ad", "", "", "", ""⟩⟩], [], 1⟩ (some "s1")
        ⟨some ⟨.str "N", .str "9", .undef, .str "ad", .undef, .undef, .undef, .undef⟩,
         some [⟨.str "p2", .str "T2", .str "C", .num (.int 1)⟩]⟩).2).orders.map
      OrderRow.id).Nodup
    ∧ placeOrderSql 5 "T2"
        ⟨[⟨"u1", "A", "a@x.com", "H", "t0"⟩], [("s1", ⟨"u1", "t0"⟩)],
         [⟨"DDD-5", "u1", "T1", ⟨"n", "9", "", "ad", "", "", "", ""⟩⟩], [], 1⟩ (some "s1")
        ⟨some ⟨.str "N", .str "9", .undef, .str "ad", .undef, .undef, .undef, .undef⟩,
         some [⟨.str "p2", .str "T2", .str "C", .num (.int 1)⟩]⟩
      = (.err 500 "internal server error",
         ⟨[⟨"u1", "A", "a@x.com", "H", "t0"⟩], [("s1", ⟨"u1", "t0"⟩)],
          [⟨"DDD-5", "u1", "T1", ⟨"n", "9", "", "ad", "", "", "", ""⟩⟩], [], 1⟩) :=
  ⟨(C9_order_id_uniqueness_amended 5 "T2"
      ⟨[⟨"u1", "A", "a@x.com", "H", "t0"⟩], [("s1", ⟨"u1", "t0"⟩)],
       [⟨"DDD-5", "u1", "T1", ⟨"n", "9", "", "ad", "", "", "", ""⟩⟩], [], 1⟩ (some "s1")
      ⟨some ⟨.str "N", .str "9", .undef, .str "ad", .undef, .undef, .undef, .undef⟩,
       some [⟨.str "p2", .str "T2", .str "C", .num (.int 1)⟩]⟩
      _ _ rfl (by decide)).1,
   (C9_order_id_uniqueness_amended 5 "T2"
      ⟨[⟨"u1", "A", "a@x.com", "H", "t0"⟩], [("s1", ⟨"u1", "t0"⟩)],
       [⟨"DDD-5", "u1", "T1", ⟨"n", "9", "", "ad", "", "", "", ""⟩⟩], [], 1⟩ (some "s1")
      ⟨some ⟨.str "N", .str "9", .undef, .str "ad", .undef, .undef, .undef, .undef⟩,
       some [⟨.str "p2", .str "T2", .str "C", .num (.int 1)⟩]⟩
      _ _ rfl (by decide)).2.2 ⟨"u1", "A", "a@x.com", "t0"⟩ (by decide) (by decide)
      (by decide) ⟨⟨"DDD-5", "u1", "T1", ⟨"n", "9", "", "ad", "", "", "", ""⟩⟩,
        by decide, by decide⟩⟩

/-- C10: a successful `placeOrder` changes only the orders (and order-items)
portion of the store: the users and sessions collections are unchanged, and the
previously stored orders and items are preserved exactly, with the new rows
appended — in both variants. -/
theorem C10_placeOrder_frame (nowMs : Int) (nowIso : String) (dbJ : Db) (dbS : SqlDb)
    (sidJ sidS : Option String) (bodyJ bodyS : OrderBody)
    (stJ stS : Nat) (coJ coS : ClientOrder) (dbJ' : Db) (dbS' : SqlDb)
    (hJ : placeOrderJson nowMs nowIso dbJ sidJ bodyJ = (.ok stJ coJ, dbJ'))
    (hS : placeOrderSql nowMs nowIso dbS sidS bodyS = (.ok stS coS, dbS')) :
    dbJ'.users = dbJ.users ∧ dbJ'.sessions = dbJ.sessions
    ∧ (∃ o, dbJ'.orders = dbJ.orders ++ [o])
    ∧ dbS'.users = dbS.users ∧ dbS'.sessions = dbS.sessions
    ∧ (∃ o, dbS'.orders = dbS.orders ++ [o])
    ∧ (∃ rows, dbS'.orderItems = dbS.orderItems ++ rows) := by
  obtain ⟨s, sess, user, _, _, _, _, _, _, hu, hs, ho⟩ := placeOrderJson_success hJ
  obtain ⟨u, _, _, _, huS, hsS, hoS, _, hoiS, _⟩ := placeOrderSql_success hS
  exact ⟨hu, hs, ⟨_, ho⟩, huS, hsS, ⟨_, hoS⟩, ⟨_, hoiS⟩⟩

/-- C10 witness: a concrete successful order in each variant leaves users and
sessions untouched and appends exactly one order (and its item rows). -/
theorem C10_witness :
    ((placeOrderJson 7 "T1"
        ⟨[⟨"u1", "A", "a@x.com", "H", "t0"⟩], [("s1", ⟨"u1", "t0"⟩)], []⟩ (some "s1")
        ⟨some ⟨.str "N", .str "9", .undef, .str "ad", .undef, .undef, .undef, .undef⟩,
         some [⟨.str "p1", .str "T", .str "C", .num (.int 2)⟩]⟩).2).users
      = [⟨"u1", "A", "a@x.com", "H", "t0"⟩]
    ∧ ((placeOrderJson 7 "T1"
        ⟨[⟨"u1", "A", "a@x.com", "H", "t0"⟩], [("s1", ⟨"u1", "t0"⟩)], []⟩ (some "s1")
        ⟨some ⟨.str "N", .str "9", .undef, .str "ad", .undef, .undef, .undef, .undef⟩,
         some [⟨.str "p1", .str "T", .str "C", .num (.int 2)⟩]⟩).2).sessions
      = [("s1", ⟨"u1", "t0"⟩)]
    ∧ ((placeOrderSql 7 "T1"
        ⟨[⟨"u1", "A", "a@x.com", "H", "t0"⟩], [("s1", ⟨"u1", "t0"⟩)], [], [], 1⟩ (some "s1")
        ⟨some ⟨.str "N", .str "9", .undef, .str "ad", .undef, .undef, .undef, .undef⟩,
         some [⟨.str "p1", .str "T", .str "C", .num (.int 2)⟩]⟩).2).users
      = [⟨"u1", "A", "a@x.com", "H", "t0"⟩]
    ∧ ((placeOrderSql 7 "T1"
        ⟨[⟨"u1", "A", "a@x.com", "H", "t0"⟩], [("s1", ⟨"u1", "t0"⟩)], [], [], 1⟩ (some "s1")
        ⟨some ⟨.str "N", .str "9", .undef, .str "ad", .undef, .undef, .undef, .undef⟩,
         some [⟨.str "p1", .str "T", .str "C", .num (.int 2)⟩]⟩).2).sessions
      = [("s1", ⟨"u1", "t0"⟩)]
    ∧ (∃ o, ((placeOrderJson 7 "T1"
        ⟨[⟨"u1", "A", "a@x.com", "H", "t0"⟩], [("s1", ⟨"u1", "t0"⟩)], []⟩ (some "s1")
        ⟨some ⟨.str "N", .str "9", .undef, .str "ad", .undef, .undef, .undef, .undef⟩,
         some [⟨.str "p1", .str "T", .str "C", .num (.int 2)⟩]⟩).2).orders = [] ++ [o]) := by
  have h := C10_placeOrder_frame 7 "T1"
    ⟨[⟨"u1", "A", "a@x.com", "H", "t0"⟩], [("s1", ⟨"u1", "t0"⟩)], []⟩
    ⟨[⟨"u1", "A", "a@x.com", "H", "t0"⟩], [("s1", ⟨"u1", "t0"⟩)], [], [], 1⟩
    (some "s1") (some "s1")
    ⟨some ⟨.str "N", .str "9", .undef, .str "ad", .undef, .undef, .undef, .undef⟩,
     some [⟨.str "p1", .str "T", .str "C", .num (.int 2)⟩]⟩
    ⟨some ⟨.str "N", .str "9", .undef, .str "ad", .undef, .undef, .undef, .undef⟩,
     some [⟨.str "p1", .str "T", .str "C", .num (.int 2)⟩]⟩
    201 201
    ⟨"DDD-7", "T1", ⟨"N", "9", "", "ad", "", "", "", ""⟩, [⟨"p1", "T", "C", .int 2⟩]⟩
    ⟨"DDD-7", "T1", ⟨"N", "9", "", "ad", "", "", "", ""⟩, [⟨"p1", "T", "C", .int 2⟩]⟩
    ⟨[⟨"u1", "A", "a@x.com", "H", "t0"⟩], [("s1", ⟨"u1", "t0"⟩)],
      [⟨"DDD-7", "T1", "u1", ⟨"N", "9", "", "ad", "", "", "", ""⟩,
        [⟨"p1", "T", "C", .int 2⟩]⟩]⟩
    ⟨[⟨"u1", "A", "a@x.com", "H", "t0"⟩], [("s1", ⟨"u1", "t0"⟩)],
      [⟨"DDD-7", "u1", "T1", ⟨"N", "9", "", "ad", "", "", "", ""⟩⟩],
      [⟨1, "DDD-7", "p1", "T", "C", 2⟩], 2⟩
    (by decide) (by decide)
  exact ⟨by decide, by decide, by decide, by decide, h.2.2.1⟩

/-- C1 (amended): for an authenticated user, `listMyOrders` returns exactly the
orders owned by that user.  In the JSON-file variant they come back in stored
(insertion) order — oldest first, not newest first — each with its embedded
items intact.  In the SQLite variant (under the storage invariants: distinct
creation timestamps among the user's orders, distinct order ids, increasing
item row ids) they come back newest-first by creation timestamp, each with its
item rows in insertion (row-id) order except that items whose product id is
empty are omitted by the reassembly guard. -/
theorem C1_listMyOrders_amended (dbJ : Db) (dbS : SqlDb) (sJ sidS : String) (sess : Session)
    (u : SanitizedUser)
    (hsJ : sJ ≠ "") (hl : dbJ.sessions.lookup sJ = some sess)
    (hu : getUserFromSessionSql dbS (some sidS) = some u)
    (hcr : ((dbS.orders.filter (fun o => o.userId = u.id)).map OrderRow.createdAt).Nodup)
    (hid : ((dbS.orders.filter (fun o => o.userId = u.id)).map OrderRow.id).Nodup)
    (hit : dbS.orderItems.Pairwise (fun i j => i.rowid < j.rowid)) :
    listOrdersMeJson dbJ (some sJ)
      = .ok 200 ((dbJ.orders.filter (fun o => o.userId = sess.userId)).map sanitizeOrder)
    ∧ listOrdersMeSql dbS (some sidS)
      = .ok 200 ((List.insertionSort ordLE (dbS.orders.filter (fun o => o.userId = u.id))).map
          (clientOrderOf dbS))
    ∧ ((List.insertionSort ordLE (dbS.orders.filter (fun o => o.userId = u.id))).map
        (clientOrderOf dbS)).Pairwise (fun a b => strLtB a.createdAt b.createdAt = false) := by
  refine ⟨listOrdersMeJson_ok hsJ hl, listOrdersMeSql_spec dbS sidS u hu hcr hid hit, ?_⟩
  refine List.Pairwise.map _ ?_ (List.sorted_insertionSort ordLE _)
  intro a b hab
  exact hab

/-- C1 counterexample: the JSON-file variant performs no sorting — with two
stored orders whose creation timestamps increase, `GET /orders/me` returns the
strictly older order first, so the sequence is not newest-first as the claim
requires. -/
theorem C1_counterexample_json_oldest_first :
    listOrdersMeJson
        ⟨[⟨"u1", "A", "a@x.com", "H", "t0"⟩], [("s1", ⟨"u1", "t0"⟩)],
         [⟨"DDD-1", "2024-01-01T00:00:00.000Z", "u1", ⟨"n", "9", "", "ad", "", "", "", ""⟩, []⟩,
          ⟨"DDD-2", "2024-01-02T00:00:00.000Z", "u1", ⟨"n", "9", "", "ad", "", "", "", ""⟩,
            []⟩]⟩ (some "s1")
      = .ok 200
          [⟨"DDD-1", "2024-01-01T00:00:00.000Z", ⟨"n", "9", "", "ad", "", "", "", ""⟩, []⟩,
           ⟨"DDD-2", "2024-01-02T00:00:00.000Z", ⟨"n", "9", "", "ad", "", "", "", ""⟩, []⟩]
    ∧ strLtB "2024-01-01T00:00:00.000Z" "2024-01-02T00:00:00.000Z" = true := by
  decide

/-- C1 witness: a concrete SQLite store with two orders (and an item with an
empty product id) listed newest-first with items grouped in row-id order, and
the JSON-file listing returning the stored order. -/
theorem C1_witness :
    listOrdersMeJson ⟨[⟨"u1", "A", "a@x.com", "H", "t0"⟩], [("s1", ⟨"u1", "t0"⟩)], []⟩
        (some "s1")
      = .ok 200 (((Db.mk [⟨"u1", "A", "a@x.com", "H", "t0"⟩] [("s1", ⟨"u1", "t0"⟩)]
          []).orders.filter (fun o => o.userId = ("u1" : String))).map sanitizeOrder)
    ∧ listOrdersMeSql
        ⟨[⟨"u1", "A", "a@x.com", "H", "t0"⟩], [("s1", ⟨"u1", "t0"⟩)],
         [⟨"DDD-1", "u1", "2024-01-01T00:00:00.000Z", ⟨"n", "9", "", "ad", "", "", "", ""⟩⟩,
          ⟨"DDD-2", "u1", "2024-01-02T00:00:00.000Z", ⟨"n", "9", "", "ad", "", "", "", ""⟩⟩],
         [⟨1, "DDD-1", "p1", "T1", "C", 2⟩, ⟨2, "DDD-1", "", "T2", "C", 3⟩,
          ⟨3, "DDD-2", "p3", "T3", "C", 1⟩], 4⟩ (some "s1")
      = .ok 200
          [⟨"DDD-2", "2024-01-02T00:00:00.000Z", ⟨"n", "9", "", "ad", "", "", "", ""⟩,
             [⟨"p3", "T3", "C", .int 1⟩]⟩,
           ⟨"DDD-1", "2024-01-01T00:00:00.000Z", ⟨"n", "9", "", "ad", "", "", "", ""⟩,
             [⟨"p1", "T1", "C", .int 2⟩]⟩] := by
  have h := C1_listMyOrders_amended
    ⟨[⟨"u1", "A", "a@x.com", "H", "t0"⟩], [("s1", ⟨"u1", "t0"⟩)], []⟩
    ⟨[⟨"u1", "A", "a@x.com", "H", "t0"⟩], [("s1", ⟨"u1", "t0"⟩)],
     [⟨"DDD-1", "u1", "2024-01-01T00:00:00.000Z", ⟨"n", "9", "", "ad", "", "", "", ""⟩⟩,
      ⟨"DDD-2", "u1", "2024-01-02T00:00:00.000Z", ⟨"n", "9", "", "ad", "", "", "", ""⟩⟩],
     [⟨1, "DDD-1", "p1", "T1", "C", 2⟩, ⟨2, "DDD-1", "", "T2", "C", 3⟩,
      ⟨3, "DDD-2", "p3", "T3", "C", 1⟩], 4⟩
    "s1" "s1" ⟨"u1", "t0"⟩ ⟨"u1", "A", "a@x.com", "t0"⟩
    (by decide) (by decide) (by decide) (by decide) (by decide) (by decide)
  exact ⟨h.1, h.2.1.trans (by decide)⟩

/-- C2 (amended): after a successful `placeOrder`, a `listMyOrders` for the same
session returns the placed order's customer snapshot and items unchanged — in
the JSON-file variant the response order is the final list entry, byte-for-byte;
in the SQLite variant the listed entry for the new order id carries the same
customer snapshot and the response's items minus those whose product id is
empty (such items are dropped by the reassembly guard). -/
theorem C2_roundtrip_amended (nowMs : Int) (nowIso : String) (dbJ : Db) (dbS : SqlDb)
    (sJ sidS : String) (bodyJ bodyS : OrderBody) (stJ stS : Nat) (coJ coS : ClientOrder)
    (dbJ' : Db) (dbS' : SqlDb) (u : SanitizedUser)
    (hJ : placeOrderJson nowMs nowIso dbJ (some sJ) bodyJ = (.ok stJ coJ, dbJ'))
    (hS : placeOrderSql nowMs nowIso dbS (some sidS) bodyS = (.ok stS coS, dbS'))
    (hu : getUserFromSessionSql dbS (some sidS) = some u)
    (hcr : ((dbS.orders.filter (fun o => o.userId = u.id)).map OrderRow.createdAt).Nodup)
    (hnew : ∀ o ∈ dbS.orders.filter (fun o => o.userId = u.id), o.createdAt ≠ nowIso)
    (hid : ((dbS.orders.filter (fun o => o.userId = u.id)).map OrderRow.id).Nodup)
    (hit : dbS.orderItems.Pairwise (fun i j => i.rowid < j.rowid))
    (hlt : ∀ i ∈ dbS.orderItems, i.rowid < dbS.nextItemId)
    (hfk : ∀ i ∈ dbS.orderItems, i.orderId ≠ "DDD-" ++ toString nowMs) :
    (∃ L, listOrdersMeJson dbJ' (some sJ) = .ok 200 L ∧ L.getLast? = some coJ)
    ∧ (∃ L, listOrdersMeSql dbS' (some sidS) = .ok 200 L ∧
        L.filter (fun e => e.id = coS.id)
          = [⟨coS.id, coS.createdAt, coS.customer,
              coS.items.filter (fun it => !(it.id = ""))⟩]) := by
  refine ⟨?_, placeOrderSql_roundtrip hS hu hcr hnew hid hit hlt hfk⟩
  obtain ⟨s, sess, user, hsid, hs, hsess, huser, hst, hco, hus, hss, hor⟩ :=
    placeOrderJson_success hJ
  cases hsid
  have huid : user.id = sess.userId := by
    have := List.find?_some huser
    simpa using this
  have hl' : dbJ'.sessions.lookup sJ = some sess := by
    rw [hss, hsess]
  refine ⟨_, listOrdersMeJson_ok hs hl', ?_⟩
  rw [hor, List.filter_append, List.map_append]
  rw [List.getLast?_append]
  have : (List.filter (fun o => o.userId = sess.userId)
      ([⟨"DDD-" ++ toString nowMs, nowIso, user.id,
        coerceCustomer (bodyJ.customer.getD emptyCustomerBody),
        (bodyJ.items.getD []).map coerceItem⟩] : List Order))
      = [⟨"DDD-" ++ toString nowMs, nowIso, user.id,
          coerceCustomer (bodyJ.customer.getD emptyCustomerBody),
          (bodyJ.items.getD []).map coerceItem⟩] := by
    simp [List.filter_cons, huid]
  rw [this]
  rw [hco]
  rfl

/-- C2 counterexample: in the SQLite variant an item whose coerced product id is
empty appears in the `placeOrder` response but is missing from the item list
returned by the subsequent `listMyOrders` — the round-trip is not equal. -/
theorem C2_counterexample_sql_drops_empty_id_item :
    (placeOrderSql 5 "T1"
        ⟨[⟨"u1", "A", "a@x.com", "H", "t0"⟩], [("s1", ⟨"u1", "t0"⟩)], [], [], 1⟩ (some "s1")
        ⟨some ⟨.str "N", .str "9", .undef, .str "ad", .undef, .undef, .undef, .undef⟩,
         some [⟨.undef, .str "T", .undef, .num (.int 2)⟩]⟩).1
      = .ok 201 ⟨"DDD-5", "T1", ⟨"N", "9", "", "ad", "", "", "", ""⟩,
          [⟨"", "T", "", .int 2⟩]⟩
    ∧ listOrdersMeSql
        (placeOrderSql 5 "T1"
          ⟨[⟨"u1", "A", "a@x.com", "H", "t0"⟩], [("s1", ⟨"u1", "t0"⟩)], [], [], 1⟩
          (some "s1")
          ⟨some ⟨.str "N", .str "9", .undef, .str "ad", .undef, .undef, .undef, .undef⟩,
           some [⟨.undef, .str "T", .undef, .num (.int 2)⟩]⟩).2 (some "s1")
      = .ok 200 [⟨"DDD-5", "T1", ⟨"N", "9", "", "ad", "", "", "", ""⟩, []⟩] := by
  decide

/-- C2 witness: a concrete successful order in each variant, listed back with
its customer snapshot and items intact (the SQLite filter keeps every item here
because all product ids are non-empty). -/
theorem C2_witness :
    (∃ L, listOrdersMeJson
        ⟨[⟨"u1", "A", "a@x.com", "H", "t0"⟩], [("s1", ⟨"u1", "t0"⟩)],
         [⟨"DDD-7", "T1", "u1", ⟨"N", "9", "", "ad", "", "", "", ""⟩,
           [⟨"p1", "T", "C", .int 2⟩]⟩]⟩ (some "s1") = .ok 200 L ∧
      L.getLast? = some ⟨"DDD-7", "T1", ⟨"N", "9", "", "ad", "", "", "", ""⟩,
        [⟨"p1", "T", "C", .int 2⟩]⟩)
    ∧ (∃ L, listOrdersMeSql
        ⟨[⟨"u1", "A", "a@x.com", "H", "t0"⟩], [("s1", ⟨"u1", "t0"⟩)],
         [⟨"DDD-7", "u1", "T1", ⟨"N", "9", "", "ad", "", "", "", ""⟩⟩],
         [⟨1, "DDD-7", "p1", "T", "C", 2⟩], 2⟩ (some "s1") = .ok 200 L ∧
      L.filter (fun e => e.id
          = (ClientOrder.mk "DDD-7" "T1" ⟨"N", "9", "", "ad", "", "", "", ""⟩
              [⟨"p1", "T", "C", .int 2⟩]).id)
        = [⟨(ClientOrder.mk "DDD-7" "T1" ⟨"N", "9", "", "ad", "", "", "", ""⟩
              [⟨"p1", "T", "C", .int 2⟩]).id,
            (ClientOrder.mk "DDD-7" "T1" ⟨"N", "9", "", "ad", "", "", "", ""⟩
              [⟨"p1", "T", "C", .int 2⟩]).createdAt,
            (ClientOrder.mk "DDD-7" "T1" ⟨"N", "9", "", "ad", "", "", "", ""⟩
              [⟨"p1", "T", "C", .int 2⟩]).customer,
            (ClientOrder.mk "DDD-7" "T1" ⟨"N", "9", "", "ad", "", "", "", ""⟩
              [⟨"p1", "T", "C", .int 2⟩]).items.filter (fun it => !(it.id = ""))⟩]) :=
  C2_roundtrip_amended 7 "T1"
    ⟨[⟨"u1", "A", "a@x.com", "H", "t0"⟩], [("s1", ⟨"u1", "t0"⟩)], []⟩
    ⟨[⟨"u1", "A", "a@x.com", "H", "t0"⟩], [("s1", ⟨"u1", "t0"⟩)], [], [], 1⟩
    "s1" "s1"
    ⟨some ⟨.str "N", .str "9", .undef, .str "ad", .undef, .undef, .undef, .undef⟩,
     some [⟨.str "p1", .str "T", .str "C", .num (.int 2)⟩]⟩
    ⟨some ⟨.str "N", .str "9", .undef, .str "ad", .undef, .undef, .undef, .undef⟩,
     some [⟨.str "p1", .str "T", .str "C", .num (.int 2)⟩]⟩
    201 201
    ⟨"DDD-7", "T1", ⟨"N", "9", "", "ad", "", "", "", ""⟩, [⟨"p1", "T", "C", .int 2⟩]⟩
    ⟨"DDD-7", "T1", ⟨"N", "9", "", "ad", "", "", "", ""⟩, [⟨"p1", "T", "C", .int 2⟩]⟩
    ⟨[⟨"u1", "A", "a@x.com", "H", "t0"⟩], [("s1", ⟨"u1", "t0"⟩)],
     [⟨"DDD-7", "T1", "u1", ⟨"N", "9", "", "ad", "", "", "", ""⟩,
       [⟨"p1", "T", "C", .int 2⟩]⟩]⟩
    ⟨[⟨"u1", "A", "a@x.com", "H", "t0"⟩], [("s1", ⟨"u1", "t0"⟩)],
     [⟨"DDD-7", "u1", "T1", ⟨"N", "9", "", "ad", "", "", "", ""⟩⟩],
     [⟨1, "DDD-7", "p1", "T", "C", 2⟩], 2⟩
    ⟨"u1", "A", "a@x.com", "t0"⟩
    (by decide) (by decide) (by decide) (by decide) (by simp) (by decide) (by decide)
    (by simp) (by simp)

end DDD
